import Mathlib

/-!
# Server-side channel arbitration of the IPC client/server demo

A shallow embedding of `src/src/Server/Server.c` and
`src/src/Server/ServerUtils.c`: the global structs `locks`,
`pid_channel_use`, `timers`, `stats`, the function-local statics of
`refresh_message_rate` and the receive buffers are gathered in one record
`Server`, and every C function becomes a function on that record.

Conventions.

* `int`, `long` and `pid_t` values are `Int`; the counters are not wrapped
  (a `long` counter needs 2^63 events to overflow).
* The percentage fields are `float` in C.  `refresh_stats` computes them
  exactly, over `ℚ`; `refresh_stats_with float_percent` is the same function
  with the single precision rounding of each operation made explicit.
  `stats.msg_rate` involves `exp`, it is kept as the uninterpreted expression
  of the updates applied to it (`RateExpr`).
* System calls whose result the code reads (`clock_gettime`, `open`, `read`,
  `msgrcv`) take their result from an `Env` record supplied with each signal.
* System calls that act on the outside world are appended to `Server.calls`.
  `print_stats` and the statistics file only read the state and are left out.
* `exit` is the `Except.error` result, carrying the exit status.

The handshake and the three send functions of `src/src/Client/Client.c` are
embedded in the namespace `IpcClient`.  The replies a client gets to its
successive requests are an argument of `request_send`; what the send
functions hand to the FIFO, the message queue and the shared memory segment
is kept in a `Transport` record, from which `server_env` derives what the
server's `read` and `msgrcv` deliver.
-/

namespace IpcServer

/-! ## Common.h -/

/-- Maximum length of a client message (`MSG_MAX_SIZE`). -/
def MSG_MAX_SIZE : Nat := 1024

/-- The enum `USRSignalType`; a decoded request may carry any value. -/
abbrev USRSignalType := Nat

abbrev START_WRITE : USRSignalType := 0
abbrev END_WRITE : USRSignalType := 1
abbrev WAIT : USRSignalType := 2

/-- The enum `ChannelType`.  A variable of this type is only ever produced by
`sival_int & 3` or by `get_timer_type`, so besides the three enumerators it
can hold the value 3, which every `switch` sends to its `default` case. -/
inductive ChannelType
  | FIFO
  | SHARED_MEMORY
  | MESSAGE_QUEUE
  | UNKNOWN3
  deriving DecidableEq, Repr

open ChannelType

/-- Numeric value of a channel kind. -/
def ChannelType.toNat : ChannelType → Nat
  | FIFO => 0
  | SHARED_MEMORY => 1
  | MESSAGE_QUEUE => 2
  | UNKNOWN3 => 3

/-- Channel kind of a two-bit value. -/
def ChannelType.of_bits (n : Nat) : ChannelType :=
  match n with
  | 0 => FIFO
  | 1 => SHARED_MEMORY
  | 2 => MESSAGE_QUEUE
  | _ => UNKNOWN3

/-- The three enumerators of `ChannelType`. -/
def ChannelType.valid (c : ChannelType) : Prop := c ≠ UNKNOWN3

instance (c : ChannelType) : Decidable c.valid := by
  unfold ChannelType.valid; exact inferInstance

/-! ## ServerUtils.h -/

def LOCK : Int := 1
def UNLOCK : Int := 0
def START : Int := 1
def STOP : Int := 0

/-! ## Signal numbers and exit statuses (Linux, glibc) -/

def SIGHUP : Int := 1
def SIGINT : Int := 2
def SIGUSR1 : Int := 10
def SIGTERM : Int := 15
def SIGRTMIN : Int := 34
def EXIT_SUCCESS : Int := 0
def EXIT_FAILURE : Int := 1

/-! ## State -/

/-- The struct `timespec`. -/
structure timespec where
  tv_sec : Int
  tv_nsec : Int
  deriving DecidableEq, Repr

/-- Value of the `float` `stats.msg_rate`: `zero` is the initial `0.0f`,
`ema start finish prev` is the value assigned by line 128 of `ServerUtils.c`
from the two clock readings and the previous value. -/
inductive RateExpr
  | zero
  | ema (start finish : timespec) (prev : RateExpr)
  deriving DecidableEq, Repr

/-- The struct `locks`. -/
structure Locks where
  fifo : Int
  memory_shared : Int
  message_queue : Int
  deriving DecidableEq, Repr

/-- The struct `pid_channel_use`. -/
structure PidChannelUse where
  fifo : Int
  memory_shared : Int
  message_queue : Int
  deriving DecidableEq, Repr

/-- A `timer_t` handle.  `timers_init` creates three timers, whose handles are
pairwise distinct; `other` stands for any handle that is none of them. -/
inductive timer_t
  | fifo
  | memory_shared
  | message_queue
  | other
  deriving DecidableEq, Repr

/-- The struct `timers`.  `its_value_nsec` is `its.it_value.tv_nsec` (the
other fields of `its` are 0 throughout).  Each of the three timer fields holds
the `it_value.tv_nsec` last programmed into that timer with `timer_settime`:
0 is a disarmed timer, any other value an armed one. -/
structure Timers where
  its_value_nsec : Int
  fifo : Int
  memory_shared : Int
  message_queue : Int
  deriving DecidableEq, Repr

/-- The struct `stats`. -/
structure Stats where
  fifo : Int
  memory_shared : Int
  message_queue : Int
  timeout : Int
  total : Int
  fifo_percent : ℚ
  memory_shared_percent : ℚ
  message_queue_percent : ℚ
  timeout_percent : ℚ
  msg_rate : RateExpr
  deriving DecidableEq

/-- The struct `fifo` of `Server.c`. -/
structure FifoBuf where
  fd : Int
  buffer : List Nat
  deriving DecidableEq, Repr

/-- The struct `MsgQueueElemnet`. -/
structure MsgQueueElemnet where
  type : Int
  msg : List Nat
  deriving DecidableEq, Repr

/-- Calls that act outside the server process. -/
inductive Syscall
  | sigqueue (pid : Int) (sig : Int) (sival_int : Int)
  | timer_settime (timer : timer_t) (nsec : Int)
  | open_fifo
  | read_fifo (fd : Int)
  | close (fd : Int)
  | msgrcv
  | print_msg_info (channel : ChannelType) (pid : Int) (msg : List Nat)
  | print_msg_timeout (channel : ChannelType) (pid : Int)
  deriving DecidableEq, Repr

/-- All the global state of the server process. -/
structure Server where
  locks : Locks
  pid_channel_use : PidChannelUse
  timers : Timers
  stats : Stats
  /-- The static `swaper` of `refresh_message_rate`. -/
  swaper : Int
  /-- The static `start` of `refresh_message_rate`. -/
  start : timespec
  fifo : FifoBuf
  /-- The bytes of the shared memory segment `shm.shm_ptr` points to. -/
  shm : List Nat
  /-- The field `msgqueue.buffer`. -/
  msgqueue_buffer : MsgQueueElemnet
  calls : List Syscall
  deriving DecidableEq

/-- What the operating system returns to the calls made while one signal is
handled. -/
structure Env where
  /-- Reading of `clock_gettime(CLOCK_MONOTONIC, _)`. -/
  now : timespec
  /-- Result of `open(FIFO_NAME, O_RDONLY)`; negative on failure. -/
  open_fd : Int
  /-- Bytes delivered by `read` on the FIFO; `none` when `read` fails. -/
  fifo_data : Option (List Nat)
  /-- Message text delivered by `msgrcv`; `none` when `msgrcv` fails. -/
  msg_data : Option (List Nat)
  deriving DecidableEq, Repr

/-- The fields of `siginfo_t` the handler reads.  `si_value` is a union: a
`SIGUSR1` carries `sival_int`, a timer expiration carries `sival_ptr`, given
here by the handle it points to. -/
structure siginfo_t where
  si_pid : Int
  sival_int : Int
  sival_ptr : timer_t
  deriving DecidableEq, Repr

/-- The zero-initialised globals, with buffers of `MSG_MAX_SIZE` zero bytes. -/
def Server.zero : Server where
  locks := ⟨0, 0, 0⟩
  pid_channel_use := ⟨0, 0, 0⟩
  timers := ⟨0, 0, 0, 0⟩
  stats := ⟨0, 0, 0, 0, 0, 0, 0, 0, 0, RateExpr.zero⟩
  swaper := 0
  start := ⟨0, 0⟩
  fifo := ⟨0, List.replicate MSG_MAX_SIZE 0⟩
  shm := List.replicate MSG_MAX_SIZE 0
  msgqueue_buffer := ⟨0, List.replicate MSG_MAX_SIZE 0⟩
  calls := []

/-! ## ServerUtils.c -/

/-- `refresh_message_rate`, lines 112-132. -/
def refresh_message_rate (s : Server) (now : timespec) : Server :=
  let s1 :=
    if s.swaper = 0 then
      { s with start := now }
    else
      { s with stats := { s.stats with msg_rate := RateExpr.ema s.start now s.stats.msg_rate } }
  { s1 with swaper := if s1.swaper = 0 then 1 else 0 }

/-- A C string: the bytes of a buffer before its first NUL. -/
def c_str (buf : List Nat) : List Nat := buf.takeWhile (fun b => b ≠ 0)

/-- `get_pid`, lines 282-298. -/
def get_pid (s : Server) (channel_type : ChannelType) : Int :=
  match channel_type with
  | FIFO => s.pid_channel_use.fifo
  | SHARED_MEMORY => s.pid_channel_use.memory_shared
  | MESSAGE_QUEUE => s.pid_channel_use.message_queue
  | UNKNOWN3 => 0

/-- `print_msg_info` on `stdout`, lines 347-358. -/
def print_msg_info (s : Server) (channel_type : ChannelType) (msg : List Nat) : Server :=
  { s with calls := s.calls ++ [Syscall.print_msg_info channel_type (get_pid s channel_type) (c_str msg)] }

/-- `print_msg_timeout` on `stdout`, lines 360-369. -/
def print_msg_timeout (s : Server) (channel_type : ChannelType) : Server :=
  { s with calls := s.calls ++ [Syscall.print_msg_timeout channel_type (get_pid s channel_type)] }

/-- `refresh_stats`, lines 134-186.  `msg` is the buffer passed (unused when
`timeout` is non-zero, where the C code passes `NULL`). -/
def refresh_stats (s : Server) (channel_type : ChannelType) (msg : List Nat) (timeout : Int)
    (now : timespec) : Server :=
  let s1 := refresh_message_rate s now
  let s2 := { s1 with stats := { s1.stats with total := s1.stats.total + 1 } }
  if timeout = 0 then
    let s3 :=
      match channel_type with
      | FIFO =>
        let st := { s2.stats with fifo := s2.stats.fifo + 1 }
        { s2 with stats := { st with fifo_percent := ((st.fifo : ℚ) / (st.total : ℚ)) * 100 } }
      | SHARED_MEMORY =>
        let st := { s2.stats with memory_shared := s2.stats.memory_shared + 1 }
        { s2 with stats :=
            { st with memory_shared_percent := ((st.memory_shared : ℚ) / (st.total : ℚ)) * 100 } }
      | MESSAGE_QUEUE =>
        let st := { s2.stats with message_queue := s2.stats.message_queue + 1 }
        { s2 with stats :=
            { st with message_queue_percent := ((st.message_queue : ℚ) / (st.total : ℚ)) * 100 } }
      | UNKNOWN3 => s2
    print_msg_info s3 channel_type msg
  else
    let st := { s2.stats with timeout := s2.stats.timeout + 1 }
    let s3 := { s2 with stats := { st with timeout_percent := ((st.timeout : ℚ) / (st.total : ℚ)) * 100 } }
    print_msg_timeout s3 channel_type

/-- `timers_init`, lines 227-247: the three timers are created disarmed. -/
def timers_init (s : Server) : Server :=
  { s with timers := ⟨s.timers.its_value_nsec, 0, 0, 0⟩ }

/-- `is_lock_channel`, lines 249-265. -/
def is_lock_channel (s : Server) (channel_type : ChannelType) : Int :=
  match channel_type with
  | FIFO => s.locks.fifo
  | SHARED_MEMORY => s.locks.memory_shared
  | MESSAGE_QUEUE => s.locks.message_queue
  | UNKNOWN3 => 0

/-- `get_timer_type`, lines 267-280; the last branch is `exit(EXIT_FAILURE)`. -/
def get_timer_type (timer : timer_t) : Except Int ChannelType :=
  if timer = timer_t.fifo then
    .ok FIFO
  else if timer = timer_t.memory_shared then
    .ok SHARED_MEMORY
  else if timer = timer_t.message_queue then
    .ok MESSAGE_QUEUE
  else
    .error EXIT_FAILURE

/-- `change_channel_state`, lines 300-322. -/
def change_channel_state (s : Server) (channel_type : ChannelType) (state : Int) (pid : Int) :
    Server :=
  match channel_type with
  | FIFO =>
    { s with
      locks := { s.locks with fifo := state }
      pid_channel_use := { s.pid_channel_use with fifo := if state = UNLOCK then 0 else pid } }
  | SHARED_MEMORY =>
    { s with
      locks := { s.locks with memory_shared := state }
      pid_channel_use :=
        { s.pid_channel_use with memory_shared := if state = UNLOCK then 0 else pid } }
  | MESSAGE_QUEUE =>
    { s with
      locks := { s.locks with message_queue := state }
      pid_channel_use :=
        { s.pid_channel_use with message_queue := if state = UNLOCK then 0 else pid } }
  | UNKNOWN3 => s

/-- `change_timer_state`, lines 324-345. -/
def change_timer_state (s : Server) (channel_type : ChannelType) (state : Int) : Server :=
  let nsec : Int := if state = START then 10000000 else 0
  let s1 := { s with timers := { s.timers with its_value_nsec := nsec } }
  match channel_type with
  | FIFO =>
    { s1 with
      timers := { s1.timers with fifo := s1.timers.its_value_nsec }
      calls := s1.calls ++ [Syscall.timer_settime timer_t.fifo s1.timers.its_value_nsec] }
  | SHARED_MEMORY =>
    { s1 with
      timers := { s1.timers with memory_shared := s1.timers.its_value_nsec }
      calls := s1.calls ++ [Syscall.timer_settime timer_t.memory_shared s1.timers.its_value_nsec] }
  | MESSAGE_QUEUE =>
    { s1 with
      timers := { s1.timers with message_queue := s1.timers.its_value_nsec }
      calls := s1.calls ++ [Syscall.timer_settime timer_t.message_queue s1.timers.its_value_nsec] }
  | UNKNOWN3 => s1

/-- The `it_value.tv_nsec` programmed into the timer of a channel. -/
def timer_value (s : Server) (channel_type : ChannelType) : Int :=
  match channel_type with
  | FIFO => s.timers.fifo
  | SHARED_MEMORY => s.timers.memory_shared
  | MESSAGE_QUEUE => s.timers.message_queue
  | UNKNOWN3 => 0

/-- The timer of a channel is armed. -/
def timer_armed (s : Server) (channel_type : ChannelType) : Bool :=
  timer_value s channel_type != 0

/-! ## Server.c -/

/-- Effect of a `read` of at most `MSG_MAX_SIZE` bytes into a buffer: the
bytes delivered replace the head of the buffer, the rest is kept. -/
def read_into (buffer : List Nat) (data : List Nat) : List Nat :=
  let got := data.take MSG_MAX_SIZE
  got ++ buffer.drop got.length

/-- `recibe_msg`, lines 159-191. -/
def recibe_msg (s : Server) (channel_type : ChannelType) (env : Env) : Server :=
  match channel_type with
  | FIFO =>
    let s1 := { s with fifo := { s.fifo with fd := env.open_fd }, calls := s.calls ++ [Syscall.open_fifo] }
    let delivered : Option (List Nat) := if s1.fifo.fd < (0 : Int) then none else env.fifo_data
    let s2 :=
      match delivered with
      | some data =>
        { s1 with fifo := { s1.fifo with buffer := read_into s1.fifo.buffer data } }
      | none => s1
    let s3 := { s2 with calls := s2.calls ++ [Syscall.read_fifo s2.fifo.fd, Syscall.close s2.fifo.fd] }
    refresh_stats s3 channel_type s3.fifo.buffer 0 env.now
  | SHARED_MEMORY =>
    let s1 := refresh_stats s channel_type s.shm 0 env.now
    { s1 with shm := List.replicate MSG_MAX_SIZE 0 }
  | MESSAGE_QUEUE =>
    let s1 := { s with calls := s.calls ++ [Syscall.msgrcv] }
    let s2 :=
      match env.msg_data with
      | some data =>
        { s1 with msgqueue_buffer := ⟨1, read_into s1.msgqueue_buffer.msg data⟩ }
      | none => s1
    refresh_stats s2 channel_type s2.msgqueue_buffer.msg 0 env.now
  | UNKNOWN3 => s

/-- The `int` payload converted to `unsigned int`, the type underlying both
enums (neither has a negative enumerator), which is what the casts of lines 63
and 64 do before `&` and `>>` are applied. -/
def to_unsigned (sival_int : Int) : Nat := (sival_int % 4294967296).toNat

/-- Line 63: `(ChannelType)info->si_value.sival_int & 3`. -/
def decode_channel (sival_int : Int) : ChannelType :=
  ChannelType.of_bits (to_unsigned sival_int &&& 3)

/-- Line 64: `(USRSignalType)(info->si_value.sival_int & ~3) >> 2`. -/
def decode_signal (sival_int : Int) : USRSignalType :=
  (to_unsigned sival_int &&& 4294967292) >>> 2

/-- `end_server`, lines 193-216: releases the IPC objects and exits. -/
def end_server (_s : Server) : Except Int Server :=
  .error EXIT_SUCCESS

/-- `signal_handler`, lines 57-104. -/
def signal_handler (s : Server) (sig : Int) (info : siginfo_t) (env : Env) : Except Int Server :=
  if sig = SIGUSR1 then
    let channel_type := decode_channel info.sival_int
    let signal_type := decode_signal info.sival_int
    if signal_type = END_WRITE then
      if is_lock_channel s channel_type ≠ 0 then
        let s1 := recibe_msg s channel_type env
        let s2 := change_channel_state s1 channel_type UNLOCK info.si_pid
        .ok (change_timer_state s2 channel_type STOP)
      else
        .ok s
    else if signal_type = START_WRITE then
      if is_lock_channel s channel_type ≠ 0 then
        let response := WAIT
        .ok { s with calls := s.calls ++ [Syscall.sigqueue info.si_pid SIGUSR1 (response : Int)] }
      else
        let response := START_WRITE
        let s1 := change_channel_state s channel_type LOCK info.si_pid
        let s2 := change_timer_state s1 channel_type START
        .ok { s2 with calls := s2.calls ++ [Syscall.sigqueue info.si_pid SIGUSR1 (response : Int)] }
    else
      .ok s
  else if sig = SIGRTMIN then
    match get_timer_type info.sival_ptr with
    | .error status => .error status
    | .ok channel_type =>
      let pid := get_pid s channel_type
      let s1 := refresh_stats s channel_type [] 1 env.now
      let s2 := change_channel_state s1 channel_type UNLOCK pid
      .ok (change_timer_state s2 channel_type STOP)
  else if sig = SIGTERM ∨ sig = SIGINT ∨ sig = SIGHUP then
    end_server s
  else
    .ok s

/-! ## Event sequences -/

/-- One delivered signal together with what the system calls made while it is
handled return. -/
structure Event where
  sig : Int
  info : siginfo_t
  env : Env
  deriving DecidableEq, Repr

/-- The handler applied to a sequence of signals, one at a time (section 5 of
the specification: a notification is handled to completion before the next);
stops at the first `exit`. -/
def run (s : Server) : List Event → Except Int Server
  | [] => .ok s
  | e :: es =>
    match signal_handler s e.sig e.info e.env with
    | .error status => .error status
    | .ok s1 => run s1 es

/-- A request of a client, or the expiration of one of the three timers. -/
def Event.is_request_or_timer (e : Event) : Prop :=
  e.sig = SIGUSR1 ∨ (e.sig = SIGRTMIN ∧ e.info.sival_ptr ≠ timer_t.other)

instance (e : Event) : Decidable e.is_request_or_timer := by
  unfold Event.is_request_or_timer; exact inferInstance

/-! ## Vocabulary of the statements -/

/-- The handle of the timer that guards a channel. -/
def timer_of : ChannelType → timer_t
  | FIFO => timer_t.fifo
  | SHARED_MEMORY => timer_t.memory_shared
  | MESSAGE_QUEUE => timer_t.message_queue
  | UNKNOWN3 => timer_t.other

/-- The count of messages received on a channel. -/
def msg_count (st : Stats) : ChannelType → Int
  | FIFO => st.fifo
  | SHARED_MEMORY => st.memory_shared
  | MESSAGE_QUEUE => st.message_queue
  | UNKNOWN3 => 0

/-- The percentage field of a channel. -/
def msg_percent (st : Stats) : ChannelType → ℚ
  | FIFO => st.fifo_percent
  | SHARED_MEMORY => st.memory_shared_percent
  | MESSAGE_QUEUE => st.message_queue_percent
  | UNKNOWN3 => 0

/-- A sample of operating system results: the clock reads 5 s, `open` returns
descriptor 3, and both `read` and `msgrcv` deliver the bytes of `"42"` and
its terminating NUL. -/
def Env.sample : Env := ⟨⟨5, 0⟩, 3, some [52, 50, 0], some [52, 50, 0]⟩

/-- The state after process 77 was granted the FIFO. -/
def Server.fifo_busy : Server :=
  { Server.zero with
    locks := ⟨1, 0, 0⟩
    pid_channel_use := ⟨77, 0, 0⟩
    timers := ⟨10000000, 10000000, 0, 0⟩
    calls := [Syscall.timer_settime timer_t.fifo 10000000, Syscall.sigqueue 77 SIGUSR1 0] }

/-! ## Sequences of terminal outcomes -/

/-- One terminal outcome: the arguments of one call of `refresh_stats` and the
clock reading made during it. -/
structure Outcome where
  channel : ChannelType
  msg : List Nat
  timeout : Int
  now : timespec
  deriving DecidableEq, Repr

/-- A call with a valid channel and a timeout flag that is 0 or 1. -/
def Outcome.well_formed (o : Outcome) : Prop :=
  o.channel.valid ∧ (o.timeout = 0 ∨ o.timeout = 1)

instance (o : Outcome) : Decidable o.well_formed := by
  unfold Outcome.well_formed; exact inferInstance

/-- The calls of `refresh_stats` for a sequence of outcomes, in order. -/
def record_outcomes (s : Server) (os : List Outcome) : Server :=
  os.foldl (fun acc o => refresh_stats acc o.channel o.msg o.timeout o.now) s

/-- The four counters that add up to `stats.total`. -/
inductive Bucket
  | fifo
  | memory_shared
  | message_queue
  | timeout
  deriving DecidableEq, Repr

/-- The counter of a bucket. -/
def bucket_count (st : Stats) : Bucket → Int
  | Bucket.fifo => st.fifo
  | Bucket.memory_shared => st.memory_shared
  | Bucket.message_queue => st.message_queue
  | Bucket.timeout => st.timeout

/-- The percentage field of a bucket. -/
def bucket_percent (st : Stats) : Bucket → ℚ
  | Bucket.fifo => st.fifo_percent
  | Bucket.memory_shared => st.memory_shared_percent
  | Bucket.message_queue => st.message_queue_percent
  | Bucket.timeout => st.timeout_percent

/-- The bucket `refresh_stats` increments for an outcome (`none` for a
message on the channel value 3, which increments only the total). -/
def Outcome.bucket (o : Outcome) : Option Bucket :=
  if o.timeout = 0 then
    match o.channel with
    | FIFO => some Bucket.fifo
    | SHARED_MEMORY => some Bucket.memory_shared
    | MESSAGE_QUEUE => some Bucket.message_queue
    | UNKNOWN3 => none
  else
    some Bucket.timeout

/-- Every percentage is `100 * count / total` when the total is positive and 0
when the total is 0. -/
def percent_exact (st : Stats) : Prop :=
  ∀ b : Bucket,
    (0 < st.total → bucket_percent st b = 100 * (bucket_count st b : ℚ) / (st.total : ℚ)) ∧
    (st.total = 0 → bucket_percent st b = 0)

/-- The number of outcomes of a sequence up to and including the last one
that falls in bucket `b`; 0 when none does. -/
def last_update : List Outcome → Bucket → Nat
  | [], _ => 0
  | o :: os, b =>
    if last_update os b ≠ 0 then last_update os b + 1
    else if o.bucket = some b then 1 else 0

/-- The statistics satisfy the sum relation of the counters. -/
def stats_sum (st : Stats) : Prop :=
  st.total = st.fifo + st.memory_shared + st.message_queue + st.timeout

/-- A channel has a holder exactly when it is locked. -/
def holder_iff_locked (s : Server) : Prop :=
  ∀ c : ChannelType, c.valid → (get_pid s c = 0 ↔ is_lock_channel s c = 0)

/-- A message then a message on another channel. -/
def Outcome.two_channels : List Outcome :=
  [⟨FIFO, [52, 50, 0], 0, ⟨5, 0⟩⟩, ⟨SHARED_MEMORY, [52, 50, 0], 0, ⟨6, 0⟩⟩]

/-- Process 77 is granted the FIFO and completes its write. -/
def Event.fifo_cycle : List Event :=
  [⟨SIGUSR1, ⟨77, 0, timer_t.other⟩, Env.sample⟩, ⟨SIGUSR1, ⟨77, 4, timer_t.other⟩, Env.sample⟩]

/-- The expiration of the FIFO timer. -/
def Event.fifo_timer : Event := ⟨SIGRTMIN, ⟨0, 0, timer_t.fifo⟩, Env.sample⟩

/-! ## Single precision arithmetic of the percentages

The four percentage fields are `float`, and lines 146, 151, 156 and 175 compute
them as `((float)count / (float)total) * 100.0f`: two conversions, a division
and a multiplication, each rounded to single precision (round to nearest, ties
to even; `FLT_EVAL_METHOD` 0).  A finite `float` is kept as an integer
mantissa and a binary exponent.  Infinities and NaN are not represented: they
arise only from a zero total or from magnitudes of 2^128 and more, which
counters in the range of `long` with a positive total do not produce. -/

/-- Floor of the binary logarithm of a positive number, by halving. -/
def ilog2_fuel : Nat → Nat → Nat
  | 0, _ => 0
  | fuel + 1, n => if n < 2 then 0 else ilog2_fuel fuel (n / 2) + 1

/-- Floor of the binary logarithm of a positive number. -/
def ilog2 (n : Nat) : Nat := ilog2_fuel n n

/-- A finite single precision number, `mant * 2 ^ exp`. -/
structure F32 where
  mant : Int
  exp : Int
  deriving DecidableEq, Repr

/-- The single precision number nearest to the fraction `n / d` (`d` positive),
negated when `negative` is set: 24 significant bits, exponent not below the
subnormal range, ties to the even mantissa. -/
def F32.round (negative : Bool) (n d : Nat) : F32 :=
  if n = 0 then ⟨0, 0⟩
  else
    let e0 : Int := (ilog2 n : Int) - (ilog2 d : Int)
    let below : Bool := if 0 ≤ e0 then n < d * 2 ^ e0.toNat else n * 2 ^ (-e0).toNat < d
    let e : Int := if below then e0 - 1 else e0
    let q : Int := max e (-126) - 23
    let num : Nat := n * 2 ^ (-q).toNat
    let den : Nat := d * 2 ^ q.toNat
    let f : Nat := num / den
    let r : Nat := num % den
    let m : Nat :=
      if 2 * r < den then f
      else if den < 2 * r then f + 1
      else if f % 2 = 0 then f else f + 1
    ⟨if negative then -(m : Int) else (m : Int), q⟩

/-- The conversion `(float)x` of a `long`. -/
def F32.of_long (x : Int) : F32 := F32.round (decide (x < 0)) x.natAbs 1

/-- Single precision division `a / b`, for `b` other than zero. -/
def F32.div (a b : F32) : F32 :=
  F32.round (decide (a.mant < 0) != decide (b.mant < 0))
    (a.mant.natAbs * 2 ^ (a.exp - b.exp).toNat) (b.mant.natAbs * 2 ^ (b.exp - a.exp).toNat)

/-- Single precision multiplication `a * b`. -/
def F32.mul (a b : F32) : F32 :=
  F32.round (decide (a.mant < 0) != decide (b.mant < 0))
    ((a.mant * b.mant).natAbs * 2 ^ (a.exp + b.exp).toNat) (2 ^ (-(a.exp + b.exp)).toNat)

/-- The rational number `2 ^ e`. -/
def pow2 (e : Int) : ℚ := if 0 ≤ e then (2 : ℚ) ^ e.toNat else 1 / (2 : ℚ) ^ (-e).toNat

/-- The value of a single precision number. -/
def F32.to_rat (a : F32) : ℚ := (a.mant : ℚ) * pow2 a.exp

/-- The value of `((float)count / (float)total) * 100.0f`. -/
def float_percent (count total : Int) : ℚ :=
  F32.to_rat (F32.mul (F32.div (F32.of_long count) (F32.of_long total)) (F32.of_long 100))

/-- The same expression without rounding, `(count / total) * 100`. -/
def exact_percent (count total : Int) : ℚ := ((count : ℚ) / (total : ℚ)) * 100

/-- `refresh_stats`, lines 134-186, with the arithmetic of the four percentage
assignments as a parameter: `percent count total` is the value assigned from
the counter and the total.  With `exact_percent` it is `refresh_stats` above,
with `float_percent` it is the `float` arithmetic of the source. -/
def refresh_stats_with (percent : Int → Int → ℚ) (s : Server) (channel_type : ChannelType)
    (msg : List Nat) (timeout : Int) (now : timespec) : Server :=
  let s1 := refresh_message_rate s now
  let s2 := { s1 with stats := { s1.stats with total := s1.stats.total + 1 } }
  if timeout = 0 then
    let s3 :=
      match channel_type with
      | FIFO =>
        let st := { s2.stats with fifo := s2.stats.fifo + 1 }
        { s2 with stats := { st with fifo_percent := percent st.fifo st.total } }
      | SHARED_MEMORY =>
        let st := { s2.stats with memory_shared := s2.stats.memory_shared + 1 }
        { s2 with stats := { st with memory_shared_percent := percent st.memory_shared st.total } }
      | MESSAGE_QUEUE =>
        let st := { s2.stats with message_queue := s2.stats.message_queue + 1 }
        { s2 with stats := { st with message_queue_percent := percent st.message_queue st.total } }
      | UNKNOWN3 => s2
    print_msg_info s3 channel_type msg
  else
    let st := { s2.stats with timeout := s2.stats.timeout + 1 }
    let s3 := { s2 with stats := { st with timeout_percent := percent st.timeout st.total } }
    print_msg_timeout s3 channel_type

/-- The five counters are non-negative values of type `long` that can still be
incremented. -/
def Stats.in_long_range (st : Stats) : Prop :=
  (0 ≤ st.fifo ∧ st.fifo < 9223372036854775807) ∧
  (0 ≤ st.memory_shared ∧ st.memory_shared < 9223372036854775807) ∧
  (0 ≤ st.message_queue ∧ st.message_queue < 9223372036854775807) ∧
  (0 ≤ st.timeout ∧ st.timeout < 9223372036854775807) ∧
  (0 ≤ st.total ∧ st.total < 9223372036854775807)

instance (st : Stats) : Decidable st.in_long_range := by
  unfold Stats.in_long_range; exact inferInstance

/-- The state after a message on the FIFO and then a message on the shared
memory channel: counts 1 and 1, total 2, `fifo_percent` 100 (not recomputed by
the second message) and `memory_shared_percent` 50. -/
def Server.two_messages : Server :=
  refresh_stats_with float_percent
    (refresh_stats_with float_percent Server.zero FIFO [52, 50, 0] 0 ⟨5, 0⟩)
    SHARED_MEMORY [52, 50, 0] 0 ⟨6, 0⟩

/-! ## Accounting of responses and locks -/

/-- The responses queued to clients, in order: the pid addressed and the
`sival_int` sent. -/
def responses : List Syscall → List (Int × Int)
  | [] => []
  | Syscall.sigqueue pid _ v :: rest => (pid, v) :: responses rest
  | _ :: rest => responses rest

/-- The number of `START_WRITE` requests answered with `START_WRITE`
(accept). -/
def accept_count (s : Server) : Nat :=
  ((responses s.calls).filter (fun r => r.2 = (START_WRITE : Int))).length

/-- The number of channels whose lock is set. -/
def locked_count (s : Server) : Nat :=
  (if s.locks.fifo ≠ 0 then 1 else 0) + (if s.locks.memory_shared ≠ 0 then 1 else 0) +
    (if s.locks.message_queue ≠ 0 then 1 else 0)

/-- A request names one of the three channel kinds. -/
def Event.names_valid_channel (e : Event) : Prop :=
  e.sig = SIGUSR1 → (decode_channel e.info.sival_int).valid

instance (e : Event) : Decidable e.names_valid_channel := by
  unfold Event.names_valid_channel; exact inferInstance

/-- Every timer expiration of the sequence is delivered while the timer of its
channel is armed, the sequence being handled from state `s`. -/
def timers_fire_armed : Server → List Event → Prop
  | _, [] => True
  | s, e :: es =>
    (e.sig = SIGRTMIN →
      ∃ c : ChannelType, c.valid ∧ e.info.sival_ptr = timer_of c ∧ timer_armed s c = true) ∧
    ∀ s1, signal_handler s e.sig e.info e.env = .ok s1 → timers_fire_armed s1 es

/-- The timer of a valid channel is armed exactly when the channel is locked,
and every accepted request is either still holding its channel or was counted
once in the total. -/
def accounting_ok (s : Server) : Prop :=
  (∀ c : ChannelType, c.valid → (timer_value s c ≠ 0 ↔ is_lock_channel s c ≠ 0)) ∧
  s.stats.total + (locked_count s : Int) = (accept_count s : Int)

/-- A malformed request: `SIGUSR1` with payload 3 (channel value 3, subtype
`START_WRITE`) from process 1234. -/
def Event.malformed_start : Event := ⟨SIGUSR1, ⟨1234, 3, timer_t.other⟩, Env.sample⟩

/-- The results of the system calls when every transport operation fails:
`open` returns -1, `read` and `msgrcv` fail. -/
def Env.failing : Env := ⟨⟨5, 0⟩, -1, none, none⟩

end IpcServer

/-! # The client, `src/src/Client/Client.c` -/

namespace IpcClient

open IpcServer IpcServer.ChannelType

/-- The struct `flags`. -/
structure Flags where
  connect : Int
  wait : Int
  deriving DecidableEq, Repr

/-- Calls of the client that act outside its process. -/
inductive Call
  | sigqueue (pid : Int) (sig : Int) (sival_int : Int)
  | nanosleep
  | open_fifo
  | write_fifo (fd : Int) (bytes : List Nat)
  | close (fd : Int)
  | msgsnd (type : Int) (text : List Nat)
  | strcpy_shm (bytes : List Nat)
  deriving DecidableEq, Repr

/-- The global state of a client process: the fields `type` and `server_pid`
of `*client`, the struct `flags`, and the calls made so far. -/
structure State where
  type : ChannelType
  server_pid : Int
  flags : Flags
  calls : List Call
  deriving DecidableEq, Repr

/-- The payload of a request, `(int)client->type | (int)subtype << 2`
(lines 191, 216, 238, 248). -/
def encode_request (type : ChannelType) (subtype : USRSignalType) : Int :=
  ((type.toNat ||| (subtype <<< 2) : Nat) : Int)

/-- The `SIGUSR1` branch of the client's `signal_handler`, lines 47-57. -/
def on_sigusr1 (f : Flags) (sival_int : Int) : Flags :=
  let signal_type : USRSignalType := to_unsigned sival_int
  let f1 :=
    if signal_type = START_WRITE then { f with wait := 0 }
    else if signal_type = WAIT then { f with wait := 1 }
    else f
  { f1 with connect := 1 }

/-- The client's `signal_handler`, lines 43-60; `end_client` exits. -/
def signal_handler (st : State) (sig : Int) (sival_int : Int) : Except Int State :=
  if sig = SIGUSR1 then
    .ok { st with flags := on_sigusr1 st.flags sival_int }
  else if sig = SIGTERM ∨ sig = SIGINT ∨ sig = SIGHUP then
    .error EXIT_SUCCESS
  else
    .ok st

/-- `request_send`, lines 187-209.  The second argument lists, for the
successive requests, what arrives during the wait of at most one second:
`some v` is a `SIGUSR1` carrying `v`, `none` is no signal.  The result is the
value returned, the state and the replies not consumed; `none` when the
replies run out before the call returns. -/
def request_send : State → List (Option Int) → Option (Int × State × List (Option Int))
  | _, [] => none
  | st, r :: rs =>
    let st1 :=
      { st with
        flags := { st.flags with connect := 0 }
        calls := st.calls ++
          [Call.sigqueue st.server_pid SIGUSR1 (encode_request st.type START_WRITE)] }
    let st2 :=
      match r with
      | some v => { st1 with flags := on_sigusr1 st1.flags v }
      | none => st1
    if st2.flags.connect = 0 then
      some (0, st2, rs)
    else if st2.flags.wait ≠ 0 then
      match request_send { st2 with calls := st2.calls ++ [Call.nanosleep] } rs with
      | some (_, st3, rs3) => some (1, st3, rs3)
      | none => none
    else
      some (1, st2, rs)

/-- What the client reads from the operating system during one send. -/
structure Env where
  /-- What arrives in answer to the successive requests. -/
  replies : List (Option Int)
  /-- Result of `open(FIFO_NAME, O_WRONLY)`; negative on failure. -/
  open_fd : Int
  /-- Whether `msgsnd` succeeds. -/
  msgsnd_ok : Bool
  deriving DecidableEq, Repr

/-- The content of the three transports: the bytes written to the FIFO and
not yet read, the messages in the queue, and the shared memory segment. -/
structure Transport where
  pipe : List Nat
  queue : List MsgQueueElemnet
  shm : List Nat
  deriving DecidableEq, Repr

/-- The bytes `strlen(msg) + 1` counts: the string and its terminating NUL. -/
def with_nul (msg : List Nat) : List Nat := c_str msg ++ [0]

/-- `fifo_send`, lines 211-225. -/
def fifo_send (st : State) (tr : Transport) (msg : List Nat) (env : Env) :
    Option (State × Transport) :=
  match request_send st env.replies with
  | none => none
  | some (r, st1, _) =>
    if r = 0 then
      some (st1, tr)
    else
      let st2 :=
        { st1 with calls := st1.calls ++
            [Call.sigqueue st1.server_pid SIGUSR1 (encode_request st1.type END_WRITE)] }
      let fd := env.open_fd
      let tr1 := if fd < 0 then tr else { tr with pipe := tr.pipe ++ with_nul msg }
      some ({ st2 with calls := st2.calls ++
          [Call.open_fifo, Call.write_fifo fd (with_nul msg), Call.close fd] }, tr1)

/-- `message_queue_send`, lines 227-239. -/
def message_queue_send (st : State) (tr : Transport) (msg : List Nat) (env : Env) :
    Option (State × Transport) :=
  match request_send st env.replies with
  | none => none
  | some (r, st1, _) =>
    if r = 0 then
      some (st1, tr)
    else
      let mq : MsgQueueElemnet := ⟨1, with_nul msg⟩
      let tr1 := if env.msgsnd_ok then { tr with queue := tr.queue ++ [mq] } else tr
      let st2 := { st1 with calls := st1.calls ++ [Call.msgsnd mq.type mq.msg] }
      some ({ st2 with calls := st2.calls ++
          [Call.sigqueue st2.server_pid SIGUSR1 (encode_request st2.type END_WRITE)] }, tr1)

/-- `shared_memory_send`, lines 241-249. -/
def shared_memory_send (st : State) (tr : Transport) (msg : List Nat) (env : Env) :
    Option (State × Transport) :=
  match request_send st env.replies with
  | none => none
  | some (r, st1, _) =>
    if r = 0 then
      some (st1, tr)
    else
      let tr1 := { tr with shm := with_nul msg ++ tr.shm.drop (with_nul msg).length }
      let st2 := { st1 with calls := st1.calls ++ [Call.strcpy_shm (with_nul msg)] }
      some ({ st2 with calls := st2.calls ++
          [Call.sigqueue st2.server_pid SIGUSR1 (encode_request st2.type END_WRITE)] }, tr1)

/-- The call `client->send(msg)` of line 275: `client_factory` (lines 62-93)
stores the send function of the client's channel kind, and creates no client
for any other value. -/
def send (st : State) (tr : Transport) (msg : List Nat) (env : Env) :
    Option (State × Transport) :=
  match st.type with
  | FIFO => fifo_send st tr msg env
  | SHARED_MEMORY => shared_memory_send st tr msg env
  | MESSAGE_QUEUE => message_queue_send st tr msg env
  | UNKNOWN3 => none

/-- The payload was handed to a transport: some call after the handshake
writes it. -/
def wrote_payload (st : State) : Bool :=
  st.calls.any (fun c =>
    match c with
    | Call.write_fifo _ _ => true
    | Call.msgsnd _ _ => true
    | Call.strcpy_shm _ => true
    | _ => false)

/-- A client of the given kind before its first request. -/
def State.fresh (type : ChannelType) : State := ⟨type, 4321, ⟨0, 0⟩, []⟩

/-- The results of the system calls of a send whose first request is accepted:
the reply is `START_WRITE`, `open` returns descriptor 3 and `msgsnd` succeeds. -/
def Env.accepted : Env := ⟨[some (START_WRITE : Int)], 3, true⟩

/-- A client of the given kind right after its first request was accepted. -/
def State.accepted (type : ChannelType) : State :=
  ⟨type, 4321, ⟨1, 0⟩, [Call.sigqueue 4321 SIGUSR1 (encode_request type START_WRITE)]⟩

/-- The transports before anything was sent, around a given shared memory
content. -/
def Transport.unused (shm : List Nat) : Transport := ⟨[], [], shm⟩

/-- What the server's `read` and `msgrcv` deliver from the transports: `read`
returns the bytes in the FIFO, `msgrcv` the text of the first message of type
1. -/
def server_env (tr : Transport) (now : timespec) (open_fd : Int) : IpcServer.Env :=
  ⟨now, open_fd, some tr.pipe, (tr.queue.find? (fun m => m.type = 1)).map (fun m => m.msg)⟩

end IpcClient

namespace IpcServer

open ChannelType

/-! ## Complete cycles -/

/-- One complete cycle on a channel: who sends the `START_WRITE`, who sends
the `END_WRITE`, and what the system calls return while each is handled. -/
structure Cycle where
  start_pid : Int
  end_pid : Int
  start_env : Env
  end_env : Env
  deriving DecidableEq, Repr

/-- The events of consecutive cycles on channel `c`: for each cycle the
`START_WRITE` request, then the `END_WRITE` request. -/
def cycle_events (c : ChannelType) : List Cycle → List Event
  | [] => []
  | cy :: rest =>
    ⟨SIGUSR1, ⟨cy.start_pid, IpcClient.encode_request c START_WRITE, timer_t.other⟩, cy.start_env⟩ ::
    ⟨SIGUSR1, ⟨cy.end_pid, IpcClient.encode_request c END_WRITE, timer_t.other⟩, cy.end_env⟩ ::
    cycle_events c rest

/-- A cycle in which process 77 sends both requests. -/
def Cycle.sample : Cycle := ⟨77, 77, Env.sample, Env.sample⟩

/-- A grant of the message queue that times out: process 77 is granted the
queue, the timer of the queue expires, the `END_WRITE` of process 77 arrives
afterwards, and process 88 is granted the queue. -/
def Event.queue_timeout : List Event :=
  [⟨SIGUSR1, ⟨77, 2, timer_t.other⟩, Env.sample⟩,
   ⟨SIGRTMIN, ⟨0, 0, timer_t.message_queue⟩, Env.sample⟩,
   ⟨SIGUSR1, ⟨77, 6, timer_t.other⟩, Env.sample⟩,
   ⟨SIGUSR1, ⟨88, 2, timer_t.other⟩, Env.sample⟩]

/-! ## The branches of the handler -/

theorem handler_end_locked (s : Server) (info : siginfo_t) (env : Env)
    (hsig : decode_signal info.sival_int = END_WRITE)
    (hlock : is_lock_channel s (decode_channel info.sival_int) ≠ 0) :
    signal_handler s SIGUSR1 info env =
      .ok (change_timer_state
        (change_channel_state (recibe_msg s (decode_channel info.sival_int) env)
          (decode_channel info.sival_int) UNLOCK info.si_pid)
        (decode_channel info.sival_int) STOP) := by
  unfold signal_handler
  simp only [hsig, if_true, if_pos hlock]

theorem handler_end_free (s : Server) (info : siginfo_t) (env : Env)
    (hsig : decode_signal info.sival_int = END_WRITE)
    (hfree : is_lock_channel s (decode_channel info.sival_int) = 0) :
    signal_handler s SIGUSR1 info env = .ok s := by
  unfold signal_handler
  simp [hsig, hfree]

theorem handler_start_locked (s : Server) (info : siginfo_t) (env : Env)
    (hsig : decode_signal info.sival_int = START_WRITE)
    (hlock : is_lock_channel s (decode_channel info.sival_int) ≠ 0) :
    signal_handler s SIGUSR1 info env =
      .ok { s with calls := s.calls ++ [Syscall.sigqueue info.si_pid SIGUSR1 (WAIT : Int)] } := by
  unfold signal_handler
  simp [hsig, hlock]

theorem handler_start_free (s : Server) (info : siginfo_t) (env : Env)
    (hsig : decode_signal info.sival_int = START_WRITE)
    (hfree : is_lock_channel s (decode_channel info.sival_int) = 0) :
    signal_handler s SIGUSR1 info env =
      .ok { change_timer_state
              (change_channel_state s (decode_channel info.sival_int) LOCK info.si_pid)
              (decode_channel info.sival_int) START with
            calls := (change_timer_state
              (change_channel_state s (decode_channel info.sival_int) LOCK info.si_pid)
              (decode_channel info.sival_int) START).calls ++
                [Syscall.sigqueue info.si_pid SIGUSR1 (START_WRITE : Int)] } := by
  unfold signal_handler
  simp [hsig, hfree]

theorem handler_other_request (s : Server) (info : siginfo_t) (env : Env)
    (h1 : decode_signal info.sival_int ≠ END_WRITE)
    (h2 : decode_signal info.sival_int ≠ START_WRITE) :
    signal_handler s SIGUSR1 info env = .ok s := by
  unfold signal_handler
  simp [h1, h2]

theorem handler_timer (s : Server) (c : ChannelType) (info : siginfo_t) (env : Env)
    (hc : c.valid) (hptr : info.sival_ptr = timer_of c) :
    signal_handler s SIGRTMIN info env =
      .ok (change_timer_state
        (change_channel_state (refresh_stats s c [] 1 env.now) c UNLOCK (get_pid s c)) c STOP) := by
  unfold signal_handler
  cases c <;> simp [hptr, timer_of, get_timer_type, SIGRTMIN, SIGUSR1, ChannelType.valid] at hc ⊢

/-! ## Frame lemmas -/

@[simp]
theorem change_timer_state_locks (s : Server) (c : ChannelType) (st : Int) :
    (change_timer_state s c st).locks = s.locks := by
  cases c <;> rfl

@[simp]
theorem change_timer_state_pids (s : Server) (c : ChannelType) (st : Int) :
    (change_timer_state s c st).pid_channel_use = s.pid_channel_use := by
  cases c <;> rfl

@[simp]
theorem change_timer_state_stats (s : Server) (c : ChannelType) (st : Int) :
    (change_timer_state s c st).stats = s.stats := by
  cases c <;> rfl

@[simp]
theorem change_channel_state_stats (s : Server) (c : ChannelType) (st pid : Int) :
    (change_channel_state s c st pid).stats = s.stats := by
  cases c <;> rfl

@[simp]
theorem change_channel_state_timers (s : Server) (c : ChannelType) (st pid : Int) :
    (change_channel_state s c st pid).timers = s.timers := by
  cases c <;> rfl

@[simp]
theorem refresh_stats_locks (s : Server) (c : ChannelType) (msg : List Nat) (t : Int)
    (now : timespec) : (refresh_stats s c msg t now).locks = s.locks := by
  unfold refresh_stats refresh_message_rate print_msg_info print_msg_timeout
  cases c <;> simp only [] <;> split <;> split <;> rfl

@[simp]
theorem refresh_stats_pids (s : Server) (c : ChannelType) (msg : List Nat) (t : Int)
    (now : timespec) : (refresh_stats s c msg t now).pid_channel_use = s.pid_channel_use := by
  unfold refresh_stats refresh_message_rate print_msg_info print_msg_timeout
  cases c <;> simp only [] <;> split <;> split <;> rfl

@[simp]
theorem refresh_stats_timers (s : Server) (c : ChannelType) (msg : List Nat) (t : Int)
    (now : timespec) : (refresh_stats s c msg t now).timers = s.timers := by
  unfold refresh_stats refresh_message_rate print_msg_info print_msg_timeout
  cases c <;> simp only [] <;> split <;> split <;> rfl

@[simp]
theorem recibe_msg_locks (s : Server) (c : ChannelType) (env : Env) :
    (recibe_msg s c env).locks = s.locks := by
  cases c <;> simp only [recibe_msg, refresh_stats_locks]
  · split <;> rfl
  · split <;> rfl

@[simp]
theorem recibe_msg_pids (s : Server) (c : ChannelType) (env : Env) :
    (recibe_msg s c env).pid_channel_use = s.pid_channel_use := by
  cases c <;> simp only [recibe_msg, refresh_stats_pids]
  · split <;> rfl
  · split <;> rfl

@[simp]
theorem recibe_msg_timers (s : Server) (c : ChannelType) (env : Env) :
    (recibe_msg s c env).timers = s.timers := by
  cases c <;> simp only [recibe_msg, refresh_stats_timers]
  · split <;> rfl
  · split <;> rfl

/-! ## Effect of `refresh_stats` on the counters -/

theorem refresh_stats_total (s : Server) (c : ChannelType) (msg : List Nat) (t : Int)
    (now : timespec) : (refresh_stats s c msg t now).stats.total = s.stats.total + 1 := by
  unfold refresh_stats refresh_message_rate print_msg_info print_msg_timeout
  cases c <;> simp only [] <;> split <;> split <;> rfl

theorem refresh_stats_success_count (s : Server) (c d : ChannelType) (msg : List Nat)
    (now : timespec) (hc : c.valid) :
    msg_count (refresh_stats s c msg 0 now).stats d =
      if d = c then msg_count s.stats d + 1 else msg_count s.stats d := by
  unfold refresh_stats refresh_message_rate print_msg_info
  cases c <;> cases d <;> simp [ChannelType.valid, msg_count] at hc ⊢ <;> split <;> rfl

theorem refresh_stats_success_timeout (s : Server) (c : ChannelType) (msg : List Nat)
    (now : timespec) : (refresh_stats s c msg 0 now).stats.timeout = s.stats.timeout := by
  unfold refresh_stats refresh_message_rate print_msg_info
  cases c <;> simp <;> split <;> rfl

theorem refresh_stats_timeout_count (s : Server) (c d : ChannelType) (msg : List Nat) (t : Int)
    (now : timespec) (ht : t ≠ 0) :
    msg_count (refresh_stats s c msg t now).stats d = msg_count s.stats d := by
  unfold refresh_stats refresh_message_rate print_msg_timeout
  cases d <;> simp [ht, msg_count] <;> split <;> rfl

theorem refresh_stats_timeout_timeout (s : Server) (c : ChannelType) (msg : List Nat) (t : Int)
    (now : timespec) (ht : t ≠ 0) :
    (refresh_stats s c msg t now).stats.timeout = s.stats.timeout + 1 := by
  unfold refresh_stats refresh_message_rate print_msg_timeout
  simp [ht]
  split <;> rfl

/-! ## Effect of `recibe_msg` on the counters -/

theorem recibe_msg_total (s : Server) (c : ChannelType) (env : Env) (hc : c.valid) :
    (recibe_msg s c env).stats.total = s.stats.total + 1 := by
  cases c <;> simp [ChannelType.valid, recibe_msg, refresh_stats_total] at hc ⊢
  · split <;> rfl
  · split <;> rfl

theorem recibe_msg_count (s : Server) (c d : ChannelType) (env : Env) (hc : c.valid) :
    msg_count (recibe_msg s c env).stats d =
      if d = c then msg_count s.stats d + 1 else msg_count s.stats d := by
  cases c <;> simp only [ChannelType.valid, recibe_msg, refresh_stats_success_count _ _ _ _ _ hc] at hc ⊢
  · split <;> split <;> rfl
  · split <;> split <;> rfl
  · exact absurd rfl hc

theorem recibe_msg_timeout (s : Server) (c : ChannelType) (env : Env) :
    (recibe_msg s c env).stats.timeout = s.stats.timeout := by
  cases c <;> simp only [recibe_msg, refresh_stats_success_timeout]
  · split <;> rfl
  · split <;> rfl

/-! ## Effect of the lock and timer updates -/

theorem change_channel_state_lock (s : Server) (c d : ChannelType) (st pid : Int)
    (hc : c.valid) :
    is_lock_channel (change_channel_state s c st pid) d =
      if d = c then st else is_lock_channel s d := by
  cases c <;> cases d <;> simp [ChannelType.valid, change_channel_state, is_lock_channel] at hc ⊢

theorem change_channel_state_pid (s : Server) (c d : ChannelType) (st pid : Int)
    (hc : c.valid) :
    get_pid (change_channel_state s c st pid) d =
      if d = c then (if st = UNLOCK then 0 else pid) else get_pid s d := by
  cases c <;> cases d <;> simp [ChannelType.valid, change_channel_state, get_pid] at hc ⊢

theorem change_timer_state_value (s : Server) (c d : ChannelType) (st : Int) (hc : c.valid) :
    timer_value (change_timer_state s c st) d =
      if d = c then (if st = START then 10000000 else 0) else timer_value s d := by
  cases c <;> cases d <;> simp [ChannelType.valid, change_timer_state, timer_value] at hc ⊢

theorem is_lock_channel_congr (s t : Server) (c : ChannelType) (h : s.locks = t.locks) :
    is_lock_channel s c = is_lock_channel t c := by
  cases c <;> simp [is_lock_channel, h]

theorem get_pid_congr (s t : Server) (c : ChannelType) (h : s.pid_channel_use = t.pid_channel_use) :
    get_pid s c = get_pid t c := by
  cases c <;> simp [get_pid, h]

theorem timer_value_congr (s t : Server) (c : ChannelType) (h : s.timers = t.timers) :
    timer_value s c = timer_value t c := by
  cases c <;> simp [timer_value, h]

/-! ## The handler as a case distinction -/

theorem is_lock_channel_valid (s : Server) (c : ChannelType) (h : is_lock_channel s c ≠ 0) :
    c.valid := by
  cases c <;> simp [ChannelType.valid, is_lock_channel] at h ⊢

theorem timer_of_get_timer_type (p : timer_t) (hp : p ≠ timer_t.other) :
    ∃ c : ChannelType, c.valid ∧ p = timer_of c := by
  cases p
  · exact ⟨FIFO, by decide, rfl⟩
  · exact ⟨SHARED_MEMORY, by decide, rfl⟩
  · exact ⟨MESSAGE_QUEUE, by decide, rfl⟩
  · exact absurd rfl hp

/-- The five ways in which a request or a timer expiration is handled. -/
theorem signal_handler_cases (s : Server) (e : Event) (he : e.is_request_or_timer) :
    ∃ s1, signal_handler s e.sig e.info e.env = .ok s1 ∧
      (s1 = s ∨
       (∃ c, c.valid ∧ e.sig = SIGUSR1 ∧ is_lock_channel s c ≠ 0 ∧
          s1 = change_timer_state
            (change_channel_state (recibe_msg s c e.env) c UNLOCK e.info.si_pid) c STOP) ∨
       (e.sig = SIGUSR1 ∧
          s1 = { s with
            calls := s.calls ++ [Syscall.sigqueue e.info.si_pid SIGUSR1 (WAIT : Int)] }) ∨
       (∃ c, e.sig = SIGUSR1 ∧ is_lock_channel s c = 0 ∧
          s1 = { change_timer_state (change_channel_state s c LOCK e.info.si_pid) c START with
            calls := (change_timer_state (change_channel_state s c LOCK e.info.si_pid) c START).calls
              ++ [Syscall.sigqueue e.info.si_pid SIGUSR1 (START_WRITE : Int)] }) ∨
       (∃ c, c.valid ∧ e.sig = SIGRTMIN ∧
          s1 = change_timer_state
            (change_channel_state (refresh_stats s c [] 1 e.env.now) c UNLOCK (get_pid s c))
            c STOP)) := by
  rcases he with hsig | ⟨hsig, hptr⟩
  · rw [hsig]
    by_cases hend : decode_signal e.info.sival_int = END_WRITE
    · by_cases hlock : is_lock_channel s (decode_channel e.info.sival_int) = 0
      · exact ⟨_, handler_end_free s e.info e.env hend hlock, Or.inl rfl⟩
      · exact ⟨_, handler_end_locked s e.info e.env hend hlock,
          Or.inr (Or.inl ⟨_, is_lock_channel_valid _ _ hlock, rfl, hlock, rfl⟩)⟩
    · by_cases hstart : decode_signal e.info.sival_int = START_WRITE
      · by_cases hlock : is_lock_channel s (decode_channel e.info.sival_int) = 0
        · exact ⟨_, handler_start_free s e.info e.env hstart hlock,
            Or.inr (Or.inr (Or.inr (Or.inl ⟨_, rfl, hlock, rfl⟩)))⟩
        · exact ⟨_, handler_start_locked s e.info e.env hstart hlock,
            Or.inr (Or.inr (Or.inl ⟨rfl, rfl⟩))⟩
      · exact ⟨_, handler_other_request s e.info e.env hend hstart, Or.inl rfl⟩
  · obtain ⟨c, hc, hcp⟩ := timer_of_get_timer_type _ hptr
    rw [hsig]
    exact ⟨_, handler_timer s c e.info e.env hc hcp,
      Or.inr (Or.inr (Or.inr (Or.inr ⟨c, hc, rfl, rfl⟩)))⟩

/-- A property kept by every handled event holds after every sequence of
them, and the sequence is handled to its end. -/
theorem run_keeps (P : Server → Prop) (Q : Event → Prop)
    (hstep : ∀ s e, P s → Q e → ∃ s1, signal_handler s e.sig e.info e.env = .ok s1 ∧ P s1) :
    ∀ (evs : List Event) (s : Server), P s → (∀ e ∈ evs, Q e) →
      ∃ s1, run s evs = .ok s1 ∧ P s1 := by
  intro evs
  induction evs with
  | nil => intro s hs _; exact ⟨s, rfl, hs⟩
  | cons e es ih =>
    intro s hs hq
    obtain ⟨s1, h1, hp1⟩ := hstep s e hs (hq e (List.mem_cons_self _ _))
    obtain ⟨s2, h2, hp2⟩ := ih s1 hp1 (fun x hx => hq x (List.mem_cons_of_mem _ hx))
    refine ⟨s2, ?_, hp2⟩
    simp only [run, h1]
    exact h2

theorem stats_sum_step (s : Server) (e : Event) (hs : stats_sum s.stats)
    (he : e.is_request_or_timer) :
    ∃ s1, signal_handler s e.sig e.info e.env = .ok s1 ∧ stats_sum s1.stats := by
  obtain ⟨s1, hrun, hcase⟩ := signal_handler_cases s e he
  refine ⟨s1, hrun, ?_⟩
  unfold stats_sum at hs ⊢
  rcases hcase with h | ⟨c, hc, -, -, h⟩ | ⟨-, h⟩ | ⟨c, -, -, h⟩ | ⟨c, hc, -, h⟩
  · rw [h]; exact hs
  · have ht := recibe_msg_total s c e.env hc
    have h0 := recibe_msg_count s c FIFO e.env hc
    have h1 := recibe_msg_count s c SHARED_MEMORY e.env hc
    have h2 := recibe_msg_count s c MESSAGE_QUEUE e.env hc
    have h3 := recibe_msg_timeout s c e.env
    simp only [msg_count] at h0 h1 h2
    subst h
    simp only [change_timer_state_stats, change_channel_state_stats]
    cases c <;> simp at h0 h1 h2 <;> first | exact absurd rfl hc | omega
  · rw [h]; exact hs
  · subst h
    simpa using hs
  · have ht := refresh_stats_total s c [] 1 e.env.now
    have h0 := refresh_stats_timeout_count s c FIFO [] 1 e.env.now (by decide)
    have h1 := refresh_stats_timeout_count s c SHARED_MEMORY [] 1 e.env.now (by decide)
    have h2 := refresh_stats_timeout_count s c MESSAGE_QUEUE [] 1 e.env.now (by decide)
    have h3 := refresh_stats_timeout_timeout s c [] 1 e.env.now (by decide)
    simp only [msg_count] at h0 h1 h2
    subst h
    simp only [change_timer_state_stats, change_channel_state_stats]
    omega

/-! ## The lock and holder tables -/

theorem holder_iff_locked_of_eq (s t : Server) (hl : t.locks = s.locks)
    (hp : t.pid_channel_use = s.pid_channel_use) (h : holder_iff_locked s) :
    holder_iff_locked t := by
  intro d hd
  rw [get_pid_congr t s d hp, is_lock_channel_congr t s d hl]
  exact h d hd

theorem holder_iff_locked_change (s : Server) (c : ChannelType) (st pid : Int)
    (hst : (if st = UNLOCK then 0 else pid) = 0 ↔ st = 0) (h : holder_iff_locked s) :
    holder_iff_locked (change_channel_state s c st pid) := by
  by_cases hc : c.valid
  · intro d hd
    rw [change_channel_state_pid _ _ _ _ _ hc, change_channel_state_lock _ _ _ _ _ hc]
    by_cases hdc : d = c
    · simp only [hdc, if_true]
      exact hst
    · simp only [hdc, if_false]
      exact h d hd
  · have hu : c = UNKNOWN3 := by
      cases c <;> simp [ChannelType.valid] at hc ⊢
    subst hu
    exact h

theorem holder_iff_locked_step (s : Server) (e : Event) (hs : holder_iff_locked s)
    (he : e.is_request_or_timer ∧ (e.sig = SIGUSR1 → e.info.si_pid ≠ 0)) :
    ∃ s1, signal_handler s e.sig e.info e.env = .ok s1 ∧ holder_iff_locked s1 := by
  obtain ⟨s1, hrun, hcase⟩ := signal_handler_cases s e he.1
  refine ⟨s1, hrun, ?_⟩
  rcases hcase with h | ⟨c, -, -, -, h⟩ | ⟨-, h⟩ | ⟨c, hsig, -, h⟩ | ⟨c, -, -, h⟩
  · rw [h]; exact hs
  · subst h
    refine holder_iff_locked_of_eq _ _ (change_timer_state_locks _ _ _)
      (change_timer_state_pids _ _ _) ?_
    refine holder_iff_locked_change _ _ _ _ (by simp [UNLOCK]) ?_
    exact holder_iff_locked_of_eq _ _ (recibe_msg_locks _ _ _) (recibe_msg_pids _ _ _) hs
  · subst h
    exact holder_iff_locked_of_eq _ _ rfl rfl hs
  · subst h
    refine holder_iff_locked_of_eq _
      (change_timer_state (change_channel_state s c LOCK e.info.si_pid) c START) rfl rfl ?_
    refine holder_iff_locked_of_eq _ _ (change_timer_state_locks _ _ _)
      (change_timer_state_pids _ _ _) ?_
    refine holder_iff_locked_change _ _ _ _ ?_ hs
    have hpid := he.2 hsig
    simp [LOCK, UNLOCK, hpid]
  · subst h
    refine holder_iff_locked_of_eq _ _ (change_timer_state_locks _ _ _)
      (change_timer_state_pids _ _ _) ?_
    refine holder_iff_locked_change _ _ _ _ (by simp [UNLOCK]) ?_
    exact holder_iff_locked_of_eq _ _ (refresh_stats_locks _ _ _ _ _)
      (refresh_stats_pids _ _ _ _ _) hs

theorem holder_iff_locked_zero : holder_iff_locked Server.zero := by
  intro c _
  cases c <;> simp [get_pid, is_lock_channel, Server.zero]

/-! ## Percentages -/

theorem record_outcomes_append (s : Server) (os : List Outcome) (o : Outcome) :
    record_outcomes s (os ++ [o]) =
      refresh_stats (record_outcomes s os) o.channel o.msg o.timeout o.now := by
  simp [record_outcomes, List.foldl_append]

theorem last_update_append (os : List Outcome) (o : Outcome) (b : Bucket) :
    last_update (os ++ [o]) b = if o.bucket = some b then os.length + 1 else last_update os b := by
  induction os with
  | nil => simp [last_update]
  | cons a os ih =>
    simp only [List.cons_append, last_update, List.length_cons]
    by_cases hb : o.bucket = some b
    · simp [ih, hb]
    · simp [ih, hb]

theorem last_update_le (os : List Outcome) (b : Bucket) : last_update os b ≤ os.length := by
  induction os with
  | nil => simp [last_update]
  | cons a os ih =>
    simp only [last_update, List.length_cons]
    split
    · omega
    · split <;> omega

theorem refresh_stats_bucket_count (s : Server) (o : Outcome) (b : Bucket) :
    bucket_count (refresh_stats s o.channel o.msg o.timeout o.now).stats b =
      if o.bucket = some b then bucket_count s.stats b + 1 else bucket_count s.stats b := by
  obtain ⟨c, m, t, now⟩ := o
  unfold refresh_stats refresh_message_rate print_msg_info print_msg_timeout Outcome.bucket
  by_cases ht : t = 0
  · cases c <;> cases b <;> simp [ht, bucket_count] <;> split <;> rfl
  · cases b <;> simp [ht, bucket_count] <;> split <;> rfl

theorem refresh_stats_bucket_percent (s : Server) (o : Outcome) (b : Bucket) :
    bucket_percent (refresh_stats s o.channel o.msg o.timeout o.now).stats b =
      if o.bucket = some b then
        (((bucket_count s.stats b + 1 : Int) : ℚ) / ((s.stats.total + 1 : Int) : ℚ)) * 100
      else bucket_percent s.stats b := by
  obtain ⟨c, m, t, now⟩ := o
  unfold refresh_stats refresh_message_rate print_msg_info print_msg_timeout Outcome.bucket
  by_cases ht : t = 0
  · cases c <;> cases b <;> simp [ht, bucket_count, bucket_percent] <;> split <;> rfl
  · cases b <;> simp [ht, bucket_count, bucket_percent] <;> split <;> rfl

theorem well_formed_bucket (o : Outcome) (ho : o.well_formed) : ∃ b, o.bucket = some b := by
  obtain ⟨c, m, t, now⟩ := o
  obtain ⟨hc, _⟩ := ho
  unfold Outcome.bucket
  by_cases ht : t = 0
  · cases c <;> simp [ht, ChannelType.valid] at hc ⊢
  · simp [ht]

/-- The relation between the percentage fields and the counters that every
sequence of `refresh_stats` calls keeps. -/
theorem percent_relation (os : List Outcome) :
    (record_outcomes Server.zero os).stats.total = os.length ∧
    ∀ b : Bucket,
      (last_update os b = 0 →
        bucket_count (record_outcomes Server.zero os).stats b = 0 ∧
        bucket_percent (record_outcomes Server.zero os).stats b = 0) ∧
      (0 < last_update os b →
        bucket_percent (record_outcomes Server.zero os).stats b =
          100 * (bucket_count (record_outcomes Server.zero os).stats b : ℚ) /
            (last_update os b : ℚ)) := by
  induction os using List.reverseRecOn with
  | nil =>
    refine ⟨rfl, fun b => ⟨fun _ => ?_, fun h => absurd h (by simp [last_update])⟩⟩
    cases b <;> exact ⟨rfl, rfl⟩
  | append_singleton os o ih =>
    obtain ⟨htot, hb⟩ := ih
    rw [record_outcomes_append]
    refine ⟨?_, fun b => ?_⟩
    · rw [refresh_stats_total, htot]
      simp
    · rw [refresh_stats_bucket_count, refresh_stats_bucket_percent, last_update_append, htot]
      by_cases hob : o.bucket = some b
      · simp only [hob, if_true]
        refine ⟨fun h => absurd h (by omega), fun _ => ?_⟩
        push_cast
        ring
      · simp only [hob, if_false]
        exact hb b

/-! ## Single transitions of the arbiter -/

/-- Claim C1: RequestStart on a free channel.  When `signal_handler` handles a
`SIGUSR1` whose payload decodes to a valid channel `c` and to `START_WRITE`
while `is_lock_channel c` is 0, it returns normally; afterwards `c` is locked,
`get_pid c` is the sender, the timer of `c` has been programmed with the START
value (armed), the response queued to the sender is `START_WRITE`, the
statistics are unchanged, and lock, holder and timer of the other channels are
unchanged. -/
theorem request_start_on_free_channel (s : Server) (c : ChannelType) (info : siginfo_t)
    (env : Env) (hc : c.valid) (hch : decode_channel info.sival_int = c)
    (hsig : decode_signal info.sival_int = START_WRITE) (hfree : is_lock_channel s c = 0) :
    ∃ s1, signal_handler s SIGUSR1 info env = .ok s1 ∧
      is_lock_channel s1 c = LOCK ∧ get_pid s1 c = info.si_pid ∧
      timer_value s1 c = 10000000 ∧ timer_armed s1 c = true ∧
      s1.calls = s.calls ++ [Syscall.timer_settime (timer_of c) 10000000,
        Syscall.sigqueue info.si_pid SIGUSR1 (START_WRITE : Int)] ∧
      s1.stats = s.stats ∧
      ∀ d, d ≠ c → is_lock_channel s1 d = is_lock_channel s d ∧ get_pid s1 d = get_pid s d ∧
        timer_value s1 d = timer_value s d := by
  unfold signal_handler
  simp only [hch, hsig, hfree]
  cases c
  all_goals
    simp [ChannelType.valid, change_channel_state, change_timer_state, is_lock_channel, get_pid,
      timer_value, timer_armed, timer_of, LOCK, START, UNLOCK] at hc ⊢
  all_goals (intro d hd; cases d <;> simp_all)

/-- Claim C1 at a concrete input: process 1234 asks for the shared memory
channel (payload 1) in the zero-initialised state. -/
theorem request_start_on_free_channel_witness :
    (SHARED_MEMORY.valid ∧ decode_channel 1 = SHARED_MEMORY ∧ decode_signal 1 = START_WRITE ∧
      is_lock_channel Server.zero SHARED_MEMORY = 0) ∧
    ∃ s1, signal_handler Server.zero SIGUSR1 ⟨1234, 1, timer_t.other⟩ Env.sample = .ok s1 ∧
      is_lock_channel s1 SHARED_MEMORY = LOCK ∧ get_pid s1 SHARED_MEMORY = 1234 ∧
      timer_value s1 SHARED_MEMORY = 10000000 ∧ timer_armed s1 SHARED_MEMORY = true ∧
      s1.calls = Server.zero.calls ++ [Syscall.timer_settime (timer_of SHARED_MEMORY) 10000000,
        Syscall.sigqueue 1234 SIGUSR1 (START_WRITE : Int)] ∧
      s1.stats = Server.zero.stats ∧
      ∀ d, d ≠ SHARED_MEMORY →
        is_lock_channel s1 d = is_lock_channel Server.zero d ∧
        get_pid s1 d = get_pid Server.zero d ∧ timer_value s1 d = timer_value Server.zero d :=
  ⟨⟨by decide, by decide, by decide, by decide⟩,
    request_start_on_free_channel Server.zero SHARED_MEMORY ⟨1234, 1, timer_t.other⟩ Env.sample
      (by decide) (by decide) (by decide) (by decide)⟩

/-- Claim C2: RequestStart on a busy channel.  When the payload decodes to a
valid channel `c` and to `START_WRITE` while `c` is locked by holder `h`,
whoever the sender is, the handler returns normally and the only change is the
response `WAIT` queued to the sender: `c` stays locked with holder `h`, no
timer is programmed and no statistic changes. -/
theorem request_start_on_busy_channel (s : Server) (c : ChannelType) (h : Int)
    (info : siginfo_t) (env : Env) (hc : c.valid) (hch : decode_channel info.sival_int = c)
    (hsig : decode_signal info.sival_int = START_WRITE) (hlock : is_lock_channel s c ≠ 0)
    (hh : get_pid s c = h) :
    ∃ s1, signal_handler s SIGUSR1 info env = .ok s1 ∧
      s1 = { s with calls := s.calls ++ [Syscall.sigqueue info.si_pid SIGUSR1 (WAIT : Int)] } ∧
      is_lock_channel s1 c = is_lock_channel s c ∧ get_pid s1 c = h ∧
      s1.locks = s.locks ∧ s1.pid_channel_use = s.pid_channel_use ∧
      s1.timers = s.timers ∧ s1.stats = s.stats := by
  have _ := hc
  subst hch
  exact ⟨_, handler_start_locked s info env hsig hlock, rfl,
    is_lock_channel_congr _ _ _ rfl, (get_pid_congr _ _ _ rfl).trans hh, rfl, rfl, rfl, rfl⟩

/-- Claim C2 at a concrete input: process 88 asks for the FIFO (payload 0)
while process 77 holds it. -/
theorem request_start_on_busy_channel_witness :
    (FIFO.valid ∧ decode_channel 0 = FIFO ∧ decode_signal 0 = START_WRITE ∧
      is_lock_channel Server.fifo_busy FIFO ≠ 0 ∧ get_pid Server.fifo_busy FIFO = 77) ∧
    ∃ s1, signal_handler Server.fifo_busy SIGUSR1 ⟨88, 0, timer_t.other⟩ Env.sample = .ok s1 ∧
      s1 = { Server.fifo_busy with
        calls := Server.fifo_busy.calls ++ [Syscall.sigqueue 88 SIGUSR1 (WAIT : Int)] } ∧
      is_lock_channel s1 FIFO = is_lock_channel Server.fifo_busy FIFO ∧ get_pid s1 FIFO = 77 ∧
      s1.locks = Server.fifo_busy.locks ∧
      s1.pid_channel_use = Server.fifo_busy.pid_channel_use ∧
      s1.timers = Server.fifo_busy.timers ∧ s1.stats = Server.fifo_busy.stats :=
  ⟨⟨by decide, by decide, by decide, by decide, by decide⟩,
    request_start_on_busy_channel Server.fifo_busy FIFO 77 ⟨88, 0, timer_t.other⟩ Env.sample
      (by decide) (by decide) (by decide) (by decide) (by decide)⟩

/-- Claim C3: RequestEnd by the holder on a busy channel.  When the payload
decodes to a valid channel `c` and to `END_WRITE`, `c` is locked by `h` and the
sender is `h`, the handler returns normally whatever the transport delivers;
the message count of `c` and the total both grow by exactly 1, the other two
channel counts and the timeout count are unchanged, `c` is unlocked with
`get_pid c = 0` and its timer programmed with the STOP value (disarmed), and
lock and holder of the other channels are unchanged. -/
theorem request_end_by_holder (s : Server) (c : ChannelType) (h : Int) (info : siginfo_t)
    (env : Env) (hc : c.valid) (hch : decode_channel info.sival_int = c)
    (hsig : decode_signal info.sival_int = END_WRITE) (hlock : is_lock_channel s c ≠ 0)
    (hh : get_pid s c = h) (hsender : info.si_pid = h) :
    ∃ s1, signal_handler s SIGUSR1 info env = .ok s1 ∧
      msg_count s1.stats c = msg_count s.stats c + 1 ∧
      s1.stats.total = s.stats.total + 1 ∧
      (∀ d, d ≠ c → msg_count s1.stats d = msg_count s.stats d) ∧
      s1.stats.timeout = s.stats.timeout ∧
      is_lock_channel s1 c = 0 ∧ get_pid s1 c = 0 ∧
      timer_value s1 c = 0 ∧ timer_armed s1 c = false ∧
      ∀ d, d ≠ c → is_lock_channel s1 d = is_lock_channel s d ∧ get_pid s1 d = get_pid s d := by
  have _ := hh
  have _ := hsender
  subst hch
  refine ⟨_, handler_end_locked s info env hsig hlock, ?_, ?_, ?_, ?_, ?_, ?_, ?_, ?_, ?_⟩
  · simp [recibe_msg_count _ _ _ _ hc]
  · simp [recibe_msg_total _ _ _ hc]
  · intro d hd
    simp [recibe_msg_count _ _ _ _ hc, hd]
  · simp [recibe_msg_timeout]
  · rw [is_lock_channel_congr _ _ _ (change_timer_state_locks _ _ _),
      change_channel_state_lock _ _ _ _ _ hc]
    simp [UNLOCK]
  · rw [get_pid_congr _ _ _ (change_timer_state_pids _ _ _),
      change_channel_state_pid _ _ _ _ _ hc]
    simp
  · rw [change_timer_state_value _ _ _ _ hc]
    simp [STOP, START]
  · unfold timer_armed
    rw [change_timer_state_value _ _ _ _ hc]
    simp [STOP, START]
  · intro d hd
    rw [is_lock_channel_congr _ _ _ (change_timer_state_locks _ _ _),
      change_channel_state_lock _ _ _ _ _ hc,
      get_pid_congr _ _ _ (change_timer_state_pids _ _ _),
      change_channel_state_pid _ _ _ _ _ hc]
    simp only [hd, if_false]
    exact ⟨is_lock_channel_congr _ _ _ (recibe_msg_locks _ _ _),
      get_pid_congr _ _ _ (recibe_msg_pids _ _ _)⟩

/-- Claim C3 at a concrete input: process 77, holder of the FIFO, sends
`END_WRITE` for it (payload 4). -/
theorem request_end_by_holder_witness :
    (FIFO.valid ∧ decode_channel 4 = FIFO ∧ decode_signal 4 = END_WRITE ∧
      is_lock_channel Server.fifo_busy FIFO ≠ 0 ∧ get_pid Server.fifo_busy FIFO = 77 ∧
      (77 : Int) = 77) ∧
    ∃ s1, signal_handler Server.fifo_busy SIGUSR1 ⟨77, 4, timer_t.other⟩ Env.sample = .ok s1 ∧
      msg_count s1.stats FIFO = msg_count Server.fifo_busy.stats FIFO + 1 ∧
      s1.stats.total = Server.fifo_busy.stats.total + 1 ∧
      (∀ d, d ≠ FIFO → msg_count s1.stats d = msg_count Server.fifo_busy.stats d) ∧
      s1.stats.timeout = Server.fifo_busy.stats.timeout ∧
      is_lock_channel s1 FIFO = 0 ∧ get_pid s1 FIFO = 0 ∧
      timer_value s1 FIFO = 0 ∧ timer_armed s1 FIFO = false ∧
      ∀ d, d ≠ FIFO → is_lock_channel s1 d = is_lock_channel Server.fifo_busy d ∧
        get_pid s1 d = get_pid Server.fifo_busy d :=
  ⟨⟨by decide, by decide, by decide, by decide, by decide, rfl⟩,
    request_end_by_holder Server.fifo_busy FIFO 77 ⟨77, 4, timer_t.other⟩ Env.sample
      (by decide) (by decide) (by decide) (by decide) (by decide) rfl⟩

/-- Claim C4: Timeout on a busy channel.  When `signal_handler` handles the
`SIGRTMIN` of the timer of a valid channel `c` that is locked, it returns
normally; the timeout count and the total both grow by exactly 1, the three
message counts are unchanged, and `c` is unlocked with `get_pid c = 0` and its
timer programmed with the STOP value (disarmed). -/
theorem timer_fired_on_busy_channel (s : Server) (c : ChannelType) (info : siginfo_t)
    (env : Env) (hc : c.valid) (hptr : info.sival_ptr = timer_of c)
    (hlock : is_lock_channel s c ≠ 0) :
    ∃ s1, signal_handler s SIGRTMIN info env = .ok s1 ∧
      s1.stats.timeout = s.stats.timeout + 1 ∧
      s1.stats.total = s.stats.total + 1 ∧
      (∀ d, msg_count s1.stats d = msg_count s.stats d) ∧
      is_lock_channel s1 c = 0 ∧ get_pid s1 c = 0 ∧
      timer_value s1 c = 0 ∧ timer_armed s1 c = false := by
  have _ := hlock
  refine ⟨_, handler_timer s c info env hc hptr, ?_, ?_, ?_, ?_, ?_, ?_, ?_⟩
  · simp [refresh_stats_timeout_timeout]
  · simp [refresh_stats_total]
  · intro d
    simp [refresh_stats_timeout_count]
  · rw [is_lock_channel_congr _ _ _ (change_timer_state_locks _ _ _),
      change_channel_state_lock _ _ _ _ _ hc]
    simp [UNLOCK]
  · rw [get_pid_congr _ _ _ (change_timer_state_pids _ _ _),
      change_channel_state_pid _ _ _ _ _ hc]
    simp
  · rw [change_timer_state_value _ _ _ _ hc]
    simp [STOP, START]
  · unfold timer_armed
    rw [change_timer_state_value _ _ _ _ hc]
    simp [STOP, START]

/-- Claim C4 at a concrete input: the FIFO timer expires while process 77
holds the FIFO. -/
theorem timer_fired_on_busy_channel_witness :
    (FIFO.valid ∧ timer_t.fifo = timer_of FIFO ∧ is_lock_channel Server.fifo_busy FIFO ≠ 0) ∧
    ∃ s1, signal_handler Server.fifo_busy SIGRTMIN ⟨0, 0, timer_t.fifo⟩ Env.sample = .ok s1 ∧
      s1.stats.timeout = Server.fifo_busy.stats.timeout + 1 ∧
      s1.stats.total = Server.fifo_busy.stats.total + 1 ∧
      (∀ d, msg_count s1.stats d = msg_count Server.fifo_busy.stats d) ∧
      is_lock_channel s1 FIFO = 0 ∧ get_pid s1 FIFO = 0 ∧
      timer_value s1 FIFO = 0 ∧ timer_armed s1 FIFO = false :=
  ⟨⟨by decide, rfl, by decide⟩,
    timer_fired_on_busy_channel Server.fifo_busy FIFO ⟨0, 0, timer_t.fifo⟩ Env.sample
      (by decide) rfl (by decide)⟩

/-- Claim C5: RequestEnd on a free channel is a no-op.  When the payload
decodes to `END_WRITE` and to a channel value `c` (valid or not) with
`is_lock_channel c = 0`, the handler returns the state it was given: every
lock, holder, timer, statistic and buffer is unchanged and no call is made,
so nothing is received from any transport. -/
theorem request_end_on_free_channel (s : Server) (c : ChannelType) (info : siginfo_t)
    (env : Env) (hch : decode_channel info.sival_int = c)
    (hsig : decode_signal info.sival_int = END_WRITE) (hfree : is_lock_channel s c = 0) :
    signal_handler s SIGUSR1 info env = .ok s := by
  subst hch
  exact handler_end_free s info env hsig hfree

/-- Claim C5 at a concrete input: `END_WRITE` for the message queue (payload
6) arrives while process 77 holds the FIFO and the message queue is free. -/
theorem request_end_on_free_channel_witness :
    (decode_channel 6 = MESSAGE_QUEUE ∧ decode_signal 6 = END_WRITE ∧
      is_lock_channel Server.fifo_busy MESSAGE_QUEUE = 0) ∧
    signal_handler Server.fifo_busy SIGUSR1 ⟨99, 6, timer_t.other⟩ Env.sample =
      .ok Server.fifo_busy :=
  ⟨⟨by decide, by decide, by decide⟩,
    request_end_on_free_channel Server.fifo_busy MESSAGE_QUEUE ⟨99, 6, timer_t.other⟩ Env.sample
      (by decide) (by decide) (by decide)⟩

/-- Claim C6, evaluated on the code: after process 77 was granted the FIFO and
completed its write the FIFO is free with one message and no timeout counted;
the expiration of the FIFO timer handled in that state is not ignored, it
raises the timeout count to 1 and the total to 2. -/
theorem late_timer_expiration_is_counted :
    ∃ s2 s3, run Server.zero Event.fifo_cycle = .ok s2 ∧
      is_lock_channel s2 FIFO = 0 ∧ s2.stats.timeout = 0 ∧ s2.stats.total = 1 ∧
      signal_handler s2 Event.fifo_timer.sig Event.fifo_timer.info Event.fifo_timer.env =
        .ok s3 ∧
      s3.stats.timeout = 1 ∧ s3.stats.total = 2 :=
  ⟨_, _, rfl, rfl, rfl, rfl, rfl, rfl, rfl⟩

/-! ## Invariants of event sequences -/

/-- Claim C7: Statistics sum invariant.  Every finite sequence of client
requests (`SIGUSR1` with any payload and sender) and expirations of the three
timers (`SIGRTMIN`), handled from the zero-initialised state with any results
of the system calls, is handled to its end, and in the final state
`stats.total = stats.fifo + stats.memory_shared + stats.message_queue +
stats.timeout`. -/
theorem stats_sum_invariant (evs : List Event) (hevs : ∀ e ∈ evs, e.is_request_or_timer) :
    ∃ s, run Server.zero evs = .ok s ∧
      s.stats.total =
        s.stats.fifo + s.stats.memory_shared + s.stats.message_queue + s.stats.timeout :=
  run_keeps (fun s => stats_sum s.stats) Event.is_request_or_timer
    (fun s e hs he => stats_sum_step s e hs he) evs Server.zero
    (by simp [stats_sum, Server.zero]) hevs

/-- Claim C7 at a concrete input: a complete cycle on the FIFO followed by an
expiration of the FIFO timer. -/
theorem stats_sum_invariant_witness :
    (∀ e ∈ Event.fifo_cycle ++ [Event.fifo_timer], e.is_request_or_timer) ∧
    ∃ s, run Server.zero (Event.fifo_cycle ++ [Event.fifo_timer]) = .ok s ∧
      s.stats.total =
        s.stats.fifo + s.stats.memory_shared + s.stats.message_queue + s.stats.timeout :=
  ⟨by decide, stats_sum_invariant (Event.fifo_cycle ++ [Event.fifo_timer]) (by decide)⟩

/-- Claim C8 as stated fails: after a message on the FIFO followed by a message
on the shared memory channel (two well-formed outcomes) the total is 2 and the
FIFO count is 1, but `fifo_percent` still holds 100, not 50. -/
theorem percent_exact_fails :
    (∀ o ∈ Outcome.two_channels, o.well_formed) ∧
    ¬ percent_exact (record_outcomes Server.zero Outcome.two_channels).stats := by
  refine ⟨by decide, fun h => ?_⟩
  have h1 := (h Bucket.fifo).1 (by decide)
  norm_num [record_outcomes, Outcome.two_channels, refresh_stats, refresh_message_rate,
    print_msg_info, bucket_percent, bucket_count, Server.zero] at h1

/-- Claim C8, amended.  After any finite sequence of well-formed terminal
outcomes recorded from the zero-initialised state the total is the number of
outcomes, and for each of the four buckets: if no outcome fell in the bucket,
its count and its percentage are 0; otherwise its percentage is
`100 * count / T`, where `T` (at most the total) is the value the total had
right after the last outcome that fell in the bucket.  For the bucket of the
latest outcome `T` is the current total, so that percentage is exact. -/
theorem percent_as_of_last_update (os : List Outcome) (hos : ∀ o ∈ os, o.well_formed) :
    (record_outcomes Server.zero os).stats.total = os.length ∧
    (∀ b : Bucket,
      last_update os b ≤ os.length ∧
      (last_update os b = 0 →
        bucket_count (record_outcomes Server.zero os).stats b = 0 ∧
        bucket_percent (record_outcomes Server.zero os).stats b = 0) ∧
      (0 < last_update os b →
        bucket_percent (record_outcomes Server.zero os).stats b =
          100 * (bucket_count (record_outcomes Server.zero os).stats b : ℚ) /
            (last_update os b : ℚ))) ∧
    (∀ pre o, os = pre ++ [o] →
      ∃ b, o.bucket = some b ∧ last_update os b = os.length ∧
        bucket_percent (record_outcomes Server.zero os).stats b =
          100 * (bucket_count (record_outcomes Server.zero os).stats b : ℚ) /
            ((record_outcomes Server.zero os).stats.total : ℚ)) := by
  obtain ⟨htot, hrel⟩ := percent_relation os
  refine ⟨htot, fun b => ⟨last_update_le os b, hrel b⟩, ?_⟩
  intro pre o hpre
  obtain ⟨b, hb⟩ := well_formed_bucket o (hos o (by simp [hpre]))
  have hlast : last_update os b = os.length := by
    rw [hpre, last_update_append]
    simp [hb]
  refine ⟨b, hb, hlast, ?_⟩
  have hpos : 0 < last_update os b := by
    rw [hlast, hpre]
    simp
  rw [(hrel b).2 hpos, hlast, htot]
  simp

/-- Claim C8, amended, at a concrete input: a message on the FIFO followed by a
message on the shared memory channel. -/
theorem percent_as_of_last_update_witness :
    (∀ o ∈ Outcome.two_channels, o.well_formed) ∧
    (record_outcomes Server.zero Outcome.two_channels).stats.total =
      Outcome.two_channels.length ∧
    (∀ b : Bucket,
      last_update Outcome.two_channels b ≤ Outcome.two_channels.length ∧
      (last_update Outcome.two_channels b = 0 →
        bucket_count (record_outcomes Server.zero Outcome.two_channels).stats b = 0 ∧
        bucket_percent (record_outcomes Server.zero Outcome.two_channels).stats b = 0) ∧
      (0 < last_update Outcome.two_channels b →
        bucket_percent (record_outcomes Server.zero Outcome.two_channels).stats b =
          100 * (bucket_count (record_outcomes Server.zero Outcome.two_channels).stats b : ℚ) /
            (last_update Outcome.two_channels b : ℚ))) ∧
    (∀ pre o, Outcome.two_channels = pre ++ [o] →
      ∃ b, o.bucket = some b ∧
        last_update Outcome.two_channels b = Outcome.two_channels.length ∧
        bucket_percent (record_outcomes Server.zero Outcome.two_channels).stats b =
          100 * (bucket_count (record_outcomes Server.zero Outcome.two_channels).stats b : ℚ) /
            ((record_outcomes Server.zero Outcome.two_channels).stats.total : ℚ)) :=
  ⟨by decide, percent_as_of_last_update Outcome.two_channels (by decide)⟩

/-- Claim C9: Lock and holder invariant.  Every finite sequence of client
requests with a non-zero sender pid and of expirations of the three timers,
handled from the zero-initialised state, is handled to its end, and in the
final state `get_pid c = 0` if and only if `is_lock_channel c = 0`, for every
valid channel `c`. -/
theorem lock_holder_invariant (evs : List Event)
    (hevs : ∀ e ∈ evs, e.is_request_or_timer ∧ (e.sig = SIGUSR1 → e.info.si_pid ≠ 0)) :
    ∃ s, run Server.zero evs = .ok s ∧
      ∀ c : ChannelType, c.valid → (get_pid s c = 0 ↔ is_lock_channel s c = 0) :=
  run_keeps holder_iff_locked
    (fun e => e.is_request_or_timer ∧ (e.sig = SIGUSR1 → e.info.si_pid ≠ 0))
    (fun s e hs he => holder_iff_locked_step s e hs he) evs Server.zero
    holder_iff_locked_zero hevs

/-- Claim C9 at a concrete input: process 77 is granted the FIFO, completes its
write, and the FIFO timer expires afterwards. -/
theorem lock_holder_invariant_witness :
    (∀ e ∈ Event.fifo_cycle ++ [Event.fifo_timer],
      e.is_request_or_timer ∧ (e.sig = SIGUSR1 → e.info.si_pid ≠ 0)) ∧
    ∃ s, run Server.zero (Event.fifo_cycle ++ [Event.fifo_timer]) = .ok s ∧
      ∀ c : ChannelType, c.valid → (get_pid s c = 0 ↔ is_lock_channel s c = 0) :=
  ⟨by decide, lock_holder_invariant (Event.fifo_cycle ++ [Event.fifo_timer]) (by decide)⟩

/-- Claim C10, evaluated on the code: the payload 3 decodes to the channel
value 3, which is none of the three kinds, and to `START_WRITE`; handled in the
zero-initialised state it is not dropped: `its.it_value.tv_nsec` is set to the
START value and the response `START_WRITE` (accept) is queued to the sender. -/
theorem malformed_start_write_is_accepted :
    decode_channel 3 = UNKNOWN3 ∧ decode_signal 3 = START_WRITE ∧
    signal_handler Server.zero SIGUSR1 ⟨1234, 3, timer_t.other⟩ Env.sample =
      .ok { Server.zero with
        timers := ⟨10000000, 0, 0, 0⟩
        calls := [Syscall.sigqueue 1234 SIGUSR1 (START_WRITE : Int)] } :=
  ⟨rfl, rfl, rfl⟩

/-! ## Requests and the client handshake -/

/-- Claim C11: Request encoding round trip.  For every channel kind `t` among
the three and every subtype `s` among `START_WRITE` and `END_WRITE`, the
integer the client sends, `(int)t | (int)s << 2`, is decoded by the server to
exactly `(t, s)`, and another such pair with the same encoding is the same
pair. -/
theorem request_encoding_round_trip (t : ChannelType) (s : USRSignalType) (ht : t.valid)
    (hs : s = START_WRITE ∨ s = END_WRITE) :
    decode_channel (IpcClient.encode_request t s) = t ∧
    decode_signal (IpcClient.encode_request t s) = s ∧
    ∀ (t2 : ChannelType) (s2 : USRSignalType), t2.valid → (s2 = START_WRITE ∨ s2 = END_WRITE) →
      IpcClient.encode_request t2 s2 = IpcClient.encode_request t s → t2 = t ∧ s2 = s := by
  have _ := ht
  refine ⟨?_, ?_, ?_⟩
  · rcases hs with h | h <;> subst h <;> cases t <;> rfl
  · rcases hs with h | h <;> subst h <;> cases t <;> rfl
  · intro t2 s2 _ hs2
    rcases hs with h | h <;> subst h <;> rcases hs2 with h2 | h2 <;> subst h2 <;>
      cases t <;> cases t2 <;> decide

/-- Claim C11 at a concrete input: the message queue and `END_WRITE`, sent as
the integer 6. -/
theorem request_encoding_round_trip_witness :
    (MESSAGE_QUEUE.valid ∧ ((END_WRITE = START_WRITE) ∨ (END_WRITE = END_WRITE))) ∧
    IpcClient.encode_request MESSAGE_QUEUE END_WRITE = 6 ∧
    decode_channel (IpcClient.encode_request MESSAGE_QUEUE END_WRITE) = MESSAGE_QUEUE ∧
    decode_signal (IpcClient.encode_request MESSAGE_QUEUE END_WRITE) = END_WRITE ∧
    ∀ (t2 : ChannelType) (s2 : USRSignalType), t2.valid → (s2 = START_WRITE ∨ s2 = END_WRITE) →
      IpcClient.encode_request t2 s2 = IpcClient.encode_request MESSAGE_QUEUE END_WRITE →
      t2 = MESSAGE_QUEUE ∧ s2 = END_WRITE :=
  ⟨⟨by decide, Or.inr rfl⟩, rfl,
    request_encoding_round_trip MESSAGE_QUEUE END_WRITE (by decide) (Or.inr rfl)⟩

/-- Claim C12, evaluated on the code: when the first request is answered
`WAIT` and the retry gets no reply within the second, the inner call returns 0
but its result is discarded; `request_send` returns 1 with `flags.connect`
still 0, and `fifo_send` goes on to send `END_WRITE` and to write the payload
`"42"` although no request was answered with an accept. -/
theorem request_send_ignores_failed_retry :
    (∃ st, IpcClient.request_send (IpcClient.State.fresh FIFO) [some (WAIT : Int), none] =
        some (1, st, []) ∧ st.flags.connect = 0) ∧
    ∃ st2 tr, IpcClient.fifo_send (IpcClient.State.fresh FIFO) (IpcClient.Transport.unused [])
        [52, 50] ⟨[some (WAIT : Int), none], 3, true⟩ = some (st2, tr) ∧
      IpcClient.wrote_payload st2 = true ∧ tr.pipe = [52, 50, 0] :=
  ⟨⟨_, rfl, rfl⟩, _, _, rfl, rfl, rfl⟩

/-! ## The end of an occupancy -/

/-- Every `END_WRITE` handled on a locked valid channel, whoever sends it and
whatever the transport delivers, counts one message and frees the channel. -/
theorem end_write_on_locked_channel (s : Server) (info : siginfo_t) (env : Env)
    (hsig : decode_signal info.sival_int = END_WRITE)
    (hlock : is_lock_channel s (decode_channel info.sival_int) ≠ 0) :
    ∃ s1, signal_handler s SIGUSR1 info env = .ok s1 ∧
      (∀ d, msg_count s1.stats d =
        if d = decode_channel info.sival_int then msg_count s.stats d + 1
        else msg_count s.stats d) ∧
      s1.stats.total = s.stats.total + 1 ∧
      s1.stats.timeout = s.stats.timeout ∧
      (∀ d, is_lock_channel s1 d =
        if d = decode_channel info.sival_int then 0 else is_lock_channel s d) ∧
      (∀ d, get_pid s1 d = if d = decode_channel info.sival_int then 0 else get_pid s d) ∧
      timer_value s1 (decode_channel info.sival_int) = 0 := by
  have hc := is_lock_channel_valid _ _ hlock
  refine ⟨_, handler_end_locked s info env hsig hlock, ?_, ?_, ?_, ?_, ?_, ?_⟩
  · intro d
    simp [recibe_msg_count _ _ _ _ hc]
  · simp [recibe_msg_total _ _ _ hc]
  · simp [recibe_msg_timeout]
  · intro d
    rw [is_lock_channel_congr _ _ _ (change_timer_state_locks _ _ _),
      change_channel_state_lock _ _ _ _ _ hc,
      is_lock_channel_congr _ _ _ (recibe_msg_locks _ _ _)]
    rfl
  · intro d
    rw [get_pid_congr _ _ _ (change_timer_state_pids _ _ _),
      change_channel_state_pid _ _ _ _ _ hc, get_pid_congr _ _ _ (recibe_msg_pids _ _ _)]
    simp
  · rw [change_timer_state_value _ _ _ _ hc]
    simp [STOP, START]

/-- Claim C15: Receive failure is not fatal.  For every valid locked channel
`c` and every result of `open`, `read` and `msgrcv` (success or failure),
handling `END_WRITE` on `c` returns normally with `c` unlocked,
`get_pid c = 0` and the timer of `c` programmed with the STOP value
(disarmed). -/
theorem receive_failure_is_not_fatal (s : Server) (c : ChannelType) (info : siginfo_t)
    (env : Env) (hc : c.valid) (hch : decode_channel info.sival_int = c)
    (hsig : decode_signal info.sival_int = END_WRITE) (hlock : is_lock_channel s c ≠ 0) :
    ∃ s1, signal_handler s SIGUSR1 info env = .ok s1 ∧
      is_lock_channel s1 c = 0 ∧ get_pid s1 c = 0 ∧
      timer_value s1 c = 0 ∧ timer_armed s1 c = false := by
  have _ := hc
  subst hch
  obtain ⟨s1, hrun, -, -, -, hl, hp, ht⟩ := end_write_on_locked_channel s info env hsig hlock
  refine ⟨s1, hrun, ?_, ?_, ht, ?_⟩
  · simpa using hl (decode_channel info.sival_int)
  · simpa using hp (decode_channel info.sival_int)
  · simp [timer_armed, ht]

/-- Claim C15 at a concrete input: `END_WRITE` for the FIFO held by process
77, while `open` returns -1 and `read` fails. -/
theorem receive_failure_is_not_fatal_witness :
    (FIFO.valid ∧ decode_channel 4 = FIFO ∧ decode_signal 4 = END_WRITE ∧
      is_lock_channel Server.fifo_busy FIFO ≠ 0) ∧
    ∃ s1, signal_handler Server.fifo_busy SIGUSR1 ⟨77, 4, timer_t.other⟩ Env.failing = .ok s1 ∧
      is_lock_channel s1 FIFO = 0 ∧ get_pid s1 FIFO = 0 ∧
      timer_value s1 FIFO = 0 ∧ timer_armed s1 FIFO = false :=
  ⟨⟨by decide, by decide, by decide, by decide⟩,
    receive_failure_is_not_fatal Server.fifo_busy FIFO ⟨77, 4, timer_t.other⟩ Env.failing
      (by decide) (by decide) (by decide) (by decide)⟩

/-- Claim C16 as stated fails: process 77 holds the FIFO and process 88 sends
`END_WRITE` for it; the handler does not leave the FIFO locked with holder 77
and the statistics unchanged, it frees the FIFO and counts a message. -/
theorem end_write_from_other_sender_frees_channel :
    (FIFO.valid ∧ is_lock_channel Server.fifo_busy FIFO ≠ 0 ∧
      get_pid Server.fifo_busy FIFO = 77 ∧ (88 : Int) ≠ 77 ∧
      decode_channel 4 = FIFO ∧ decode_signal 4 = END_WRITE) ∧
    ∃ s1, signal_handler Server.fifo_busy SIGUSR1 ⟨88, 4, timer_t.other⟩ Env.sample = .ok s1 ∧
      ¬ (is_lock_channel s1 FIFO ≠ 0 ∧ get_pid s1 FIFO = 77 ∧
        s1.stats = Server.fifo_busy.stats) ∧
      is_lock_channel s1 FIFO = 0 ∧ get_pid s1 FIFO = 0 ∧
      s1.stats.fifo = 1 ∧ s1.stats.total = 1 :=
  ⟨⟨by decide, by decide, by decide, by decide, by decide, by decide⟩,
    _, rfl, fun h => h.1 rfl, rfl, rfl, rfl, rfl⟩

/-- Claim C16, amended.  A RequestEnd ends the occupancy whoever sends it: for
every valid channel `c` locked by holder `h` and every sender `p` with
`p ≠ h`, handling `END_WRITE` on `c` from `p` returns normally with `c`
unlocked, `get_pid c = 0` and its timer disarmed; the message count of `c` and
the total grow by exactly 1; the other two channel counts, the timeout count,
and lock and holder of the other channels are unchanged. -/
theorem request_end_by_other_sender (s : Server) (c : ChannelType) (h p : Int)
    (info : siginfo_t) (env : Env) (hc : c.valid) (hch : decode_channel info.sival_int = c)
    (hsig : decode_signal info.sival_int = END_WRITE) (hlock : is_lock_channel s c ≠ 0)
    (hh : get_pid s c = h) (hsender : info.si_pid = p) (hne : p ≠ h) :
    ∃ s1, signal_handler s SIGUSR1 info env = .ok s1 ∧
      is_lock_channel s1 c = 0 ∧ get_pid s1 c = 0 ∧
      timer_value s1 c = 0 ∧ timer_armed s1 c = false ∧
      msg_count s1.stats c = msg_count s.stats c + 1 ∧
      s1.stats.total = s.stats.total + 1 ∧
      (∀ d, d ≠ c → msg_count s1.stats d = msg_count s.stats d) ∧
      s1.stats.timeout = s.stats.timeout ∧
      ∀ d, d ≠ c → is_lock_channel s1 d = is_lock_channel s d ∧ get_pid s1 d = get_pid s d := by
  have _ := hc
  have _ := hh
  have _ := hsender
  have _ := hne
  subst hch
  obtain ⟨s1, hrun, hcnt, htot, hto, hl, hp, ht⟩ :=
    end_write_on_locked_channel s info env hsig hlock
  refine ⟨s1, hrun, ?_, ?_, ht, ?_, ?_, htot, ?_, hto, ?_⟩
  · simpa using hl (decode_channel info.sival_int)
  · simpa using hp (decode_channel info.sival_int)
  · simp [timer_armed, ht]
  · simpa using hcnt (decode_channel info.sival_int)
  · intro d hd
    simpa [hd] using hcnt d
  · intro d hd
    exact ⟨by simpa [hd] using hl d, by simpa [hd] using hp d⟩

/-- Claim C16, amended, at a concrete input: process 88 sends `END_WRITE` for
the FIFO that process 77 holds. -/
theorem request_end_by_other_sender_witness :
    (FIFO.valid ∧ decode_channel 4 = FIFO ∧ decode_signal 4 = END_WRITE ∧
      is_lock_channel Server.fifo_busy FIFO ≠ 0 ∧ get_pid Server.fifo_busy FIFO = 77 ∧
      (88 : Int) = 88 ∧ (88 : Int) ≠ 77) ∧
    ∃ s1, signal_handler Server.fifo_busy SIGUSR1 ⟨88, 4, timer_t.other⟩ Env.sample = .ok s1 ∧
      is_lock_channel s1 FIFO = 0 ∧ get_pid s1 FIFO = 0 ∧
      timer_value s1 FIFO = 0 ∧ timer_armed s1 FIFO = false ∧
      msg_count s1.stats FIFO = msg_count Server.fifo_busy.stats FIFO + 1 ∧
      s1.stats.total = Server.fifo_busy.stats.total + 1 ∧
      (∀ d, d ≠ FIFO → msg_count s1.stats d = msg_count Server.fifo_busy.stats d) ∧
      s1.stats.timeout = Server.fifo_busy.stats.timeout ∧
      ∀ d, d ≠ FIFO → is_lock_channel s1 d = is_lock_channel Server.fifo_busy d ∧
        get_pid s1 d = get_pid Server.fifo_busy d :=
  ⟨⟨by decide, by decide, by decide, by decide, by decide, rfl, by decide⟩,
    request_end_by_other_sender Server.fifo_busy FIFO 77 88 ⟨88, 4, timer_t.other⟩ Env.sample
      (by decide) (by decide) (by decide) (by decide) (by decide) rfl (by decide)⟩

/-! ## Percentages and rate -/

theorem refresh_stats_with_exact (s : Server) (c : ChannelType) (msg : List Nat) (t : Int)
    (now : timespec) : refresh_stats_with exact_percent s c msg t now = refresh_stats s c msg t now :=
  rfl

theorem float_percent_2_3 : float_percent 2 3 = 8738134 / 131072 := by
  have h : F32.mul (F32.div (F32.of_long 2) (F32.of_long 3)) (F32.of_long 100) =
      ⟨8738134, -17⟩ := by rfl
  unfold float_percent
  rw [h]
  norm_num [F32.to_rat, pow2, Int.toNat]

theorem float_percent_1_3 : float_percent 1 3 = 8738134 / 262144 := by
  have h : F32.mul (F32.div (F32.of_long 1) (F32.of_long 3)) (F32.of_long 100) =
      ⟨8738134, -18⟩ := by rfl
  unfold float_percent
  rw [h]
  norm_num [F32.to_rat, pow2, Int.toNat]

theorem float_percent_1_2 : float_percent 1 2 = 50 := by
  have h : F32.mul (F32.div (F32.of_long 1) (F32.of_long 2)) (F32.of_long 100) =
      ⟨13107200, -18⟩ := by rfl
  unfold float_percent
  rw [h]
  norm_num [F32.to_rat, pow2, Int.toNat]

theorem float_percent_1_1 : float_percent 1 1 = 100 := by
  have h : F32.mul (F32.div (F32.of_long 1) (F32.of_long 1)) (F32.of_long 100) =
      ⟨13107200, -17⟩ := by rfl
  unfold float_percent
  rw [h]
  norm_num [F32.to_rat, pow2, Int.toNat]

/-- What a call of `refresh_stats` writes, whatever the arithmetic of the
percentages: the counter of the outcome and the total grow by 1, the
percentage of that counter is assigned from the new values, and the other
three percentages keep their value. -/
theorem refresh_stats_with_frame (percent : Int → Int → ℚ) (s : Server) (c : ChannelType)
    (msg : List Nat) (now : timespec) (hc : c.valid) :
    ((refresh_stats_with percent s c msg 0 now).stats.total = s.stats.total + 1 ∧
      msg_count (refresh_stats_with percent s c msg 0 now).stats c = msg_count s.stats c + 1 ∧
      msg_percent (refresh_stats_with percent s c msg 0 now).stats c =
        percent (msg_count s.stats c + 1) (s.stats.total + 1) ∧
      (∀ d, d ≠ c →
        msg_percent (refresh_stats_with percent s c msg 0 now).stats d = msg_percent s.stats d) ∧
      (refresh_stats_with percent s c msg 0 now).stats.timeout_percent =
        s.stats.timeout_percent) ∧
    ((refresh_stats_with percent s c [] 1 now).stats.total = s.stats.total + 1 ∧
      (refresh_stats_with percent s c [] 1 now).stats.timeout = s.stats.timeout + 1 ∧
      (refresh_stats_with percent s c [] 1 now).stats.timeout_percent =
        percent (s.stats.timeout + 1) (s.stats.total + 1) ∧
      ∀ d, msg_percent (refresh_stats_with percent s c [] 1 now).stats d =
        msg_percent s.stats d) := by
  unfold refresh_stats_with refresh_message_rate print_msg_info print_msg_timeout
  refine ⟨⟨?_, ?_, ?_, ?_, ?_⟩, ?_, ?_, ?_, ?_⟩
  · cases c <;> simp [ChannelType.valid] at hc ⊢ <;> split <;> rfl
  · cases c <;> simp [ChannelType.valid, msg_count] at hc ⊢ <;> split <;> rfl
  · cases c <;> simp [ChannelType.valid, msg_percent, msg_count] at hc ⊢ <;> split <;> rfl
  · intro d hd
    cases c <;> cases d <;> simp [ChannelType.valid, msg_percent] at hc hd ⊢ <;> split <;> rfl
  · cases c <;> simp [ChannelType.valid] at hc ⊢ <;> split <;> rfl
  · simp
    split <;> rfl
  · simp
    split <;> rfl
  · simp
    split <;> rfl
  · intro d
    cases d <;> simp [msg_percent] <;> split <;> rfl

theorem two_messages_stats :
    Server.two_messages.stats.fifo = 1 ∧ Server.two_messages.stats.memory_shared = 1 ∧
    Server.two_messages.stats.message_queue = 0 ∧ Server.two_messages.stats.timeout = 0 ∧
    Server.two_messages.stats.total = 2 ∧
    Server.two_messages.stats.fifo_percent = 100 ∧
    Server.two_messages.stats.memory_shared_percent = 50 ∧
    Server.two_messages.stats.message_queue_percent = 0 ∧
    Server.two_messages.stats.timeout_percent = 0 := by
  refine ⟨rfl, rfl, rfl, rfl, rfl, ?_, ?_, rfl, rfl⟩
  · show float_percent 1 1 = 100
    exact float_percent_1_1
  · show float_percent 1 2 = 50
    exact float_percent_1_2

/-- Claim C17 as stated fails: in the state after a message on the FIFO and one
on the shared memory channel, a further message on the FIFO makes the FIFO count
2 and the total 3; the value stored in `fifo_percent` is the single precision
result 8738134 / 131072 (66.66667175...), not `100 * 2 / 3`. -/
theorem percentage_is_rounded_not_exact :
    FIFO.valid ∧ Server.two_messages.stats.in_long_range ∧
    msg_count (refresh_stats_with float_percent Server.two_messages FIFO [52, 50, 0] 0
      ⟨7, 0⟩).stats FIFO = 2 ∧
    (refresh_stats_with float_percent Server.two_messages FIFO [52, 50, 0] 0
      ⟨7, 0⟩).stats.total = 3 ∧
    msg_percent (refresh_stats_with float_percent Server.two_messages FIFO [52, 50, 0] 0
      ⟨7, 0⟩).stats FIFO = 8738134 / 131072 ∧
    msg_percent (refresh_stats_with float_percent Server.two_messages FIFO [52, 50, 0] 0
      ⟨7, 0⟩).stats FIFO ≠
      100 * (msg_count (refresh_stats_with float_percent Server.two_messages FIFO [52, 50, 0] 0
          ⟨7, 0⟩).stats FIFO : ℚ) /
        ((refresh_stats_with float_percent Server.two_messages FIFO [52, 50, 0] 0
          ⟨7, 0⟩).stats.total : ℚ) := by
  have hp : msg_percent (refresh_stats_with float_percent Server.two_messages FIFO [52, 50, 0] 0
      ⟨7, 0⟩).stats FIFO = 8738134 / 131072 := by
    show float_percent 2 3 = _
    exact float_percent_2_3
  have hcnt : msg_count (refresh_stats_with float_percent Server.two_messages FIFO [52, 50, 0] 0
      ⟨7, 0⟩).stats FIFO = 2 := rfl
  have htot : (refresh_stats_with float_percent Server.two_messages FIFO [52, 50, 0] 0
      ⟨7, 0⟩).stats.total = 3 := rfl
  refine ⟨by decide, by decide, hcnt, htot, hp, ?_⟩
  rw [hp, hcnt, htot]
  norm_num

/-- Claim C17, amended.  For every valid channel `c` and every state whose
counters are non-negative values of type `long` below `LONG_MAX`:
`refresh_stats(c, msg, 0)` adds 1 to the count of `c` and to the total, sets
the percentage of `c` to the single precision result of
`((float)count / (float)total) * 100.0f` on the new count and total, and
leaves the other two channel percentages and `timeout_percent` as they were;
`refresh_stats(c, NULL, 1)` adds 1 to the timeout count and to the total, sets
`timeout_percent` to the single precision result of the same expression on
the new timeout count and total, and leaves the three channel percentages as
they were. -/
theorem lazy_float_percentage_update (s : Server) (c : ChannelType) (msg : List Nat)
    (now : timespec) (hc : c.valid) (hrange : s.stats.in_long_range) :
    (msg_count (refresh_stats_with float_percent s c msg 0 now).stats c =
        msg_count s.stats c + 1 ∧
      (refresh_stats_with float_percent s c msg 0 now).stats.total = s.stats.total + 1 ∧
      msg_percent (refresh_stats_with float_percent s c msg 0 now).stats c =
        float_percent (msg_count (refresh_stats_with float_percent s c msg 0 now).stats c)
          (refresh_stats_with float_percent s c msg 0 now).stats.total ∧
      (∀ d, d ≠ c →
        msg_percent (refresh_stats_with float_percent s c msg 0 now).stats d =
          msg_percent s.stats d) ∧
      (refresh_stats_with float_percent s c msg 0 now).stats.timeout_percent =
        s.stats.timeout_percent) ∧
    ((refresh_stats_with float_percent s c [] 1 now).stats.timeout = s.stats.timeout + 1 ∧
      (refresh_stats_with float_percent s c [] 1 now).stats.total = s.stats.total + 1 ∧
      (refresh_stats_with float_percent s c [] 1 now).stats.timeout_percent =
        float_percent (refresh_stats_with float_percent s c [] 1 now).stats.timeout
          (refresh_stats_with float_percent s c [] 1 now).stats.total ∧
      ∀ d, msg_percent (refresh_stats_with float_percent s c [] 1 now).stats d =
        msg_percent s.stats d) := by
  have _ := hrange
  obtain ⟨⟨h1, h2, h3, h4, h5⟩, h6, h7, h8, h9⟩ :=
    refresh_stats_with_frame float_percent s c msg now hc
  refine ⟨⟨h2, h1, ?_, h4, h5⟩, h7, h6, ?_, h9⟩
  · rw [h3, h2, h1]
  · rw [h8, h7, h6]

/-- Claim C17, amended, at a concrete input: the state after a message on the
FIFO and one on the shared memory channel (`fifo_percent` 100,
`memory_shared_percent` 50, total 2).  A further message on the FIFO sets
`fifo_percent` to 8738134 / 131072 and leaves `memory_shared_percent` at 50,
although the shared memory count is now 1 of 3; a timeout sets
`timeout_percent` to 8738134 / 262144 and leaves `fifo_percent` at 100 and
`memory_shared_percent` at 50. -/
theorem lazy_float_percentage_update_witness :
    (FIFO.valid ∧ Server.two_messages.stats.in_long_range) ∧
    ((msg_count (refresh_stats_with float_percent Server.two_messages FIFO [52, 50, 0] 0
          ⟨7, 0⟩).stats FIFO = msg_count Server.two_messages.stats FIFO + 1 ∧
      (refresh_stats_with float_percent Server.two_messages FIFO [52, 50, 0] 0
          ⟨7, 0⟩).stats.total = Server.two_messages.stats.total + 1 ∧
      msg_percent (refresh_stats_with float_percent Server.two_messages FIFO [52, 50, 0] 0
          ⟨7, 0⟩).stats FIFO =
        float_percent
          (msg_count (refresh_stats_with float_percent Server.two_messages FIFO [52, 50, 0] 0
            ⟨7, 0⟩).stats FIFO)
          (refresh_stats_with float_percent Server.two_messages FIFO [52, 50, 0] 0
            ⟨7, 0⟩).stats.total ∧
      (∀ d, d ≠ FIFO →
        msg_percent (refresh_stats_with float_percent Server.two_messages FIFO [52, 50, 0] 0
            ⟨7, 0⟩).stats d = msg_percent Server.two_messages.stats d) ∧
      (refresh_stats_with float_percent Server.two_messages FIFO [52, 50, 0] 0
          ⟨7, 0⟩).stats.timeout_percent = Server.two_messages.stats.timeout_percent) ∧
    ((refresh_stats_with float_percent Server.two_messages FIFO [] 1 ⟨7, 0⟩).stats.timeout =
        Server.two_messages.stats.timeout + 1 ∧
      (refresh_stats_with float_percent Server.two_messages FIFO [] 1 ⟨7, 0⟩).stats.total =
        Server.two_messages.stats.total + 1 ∧
      (refresh_stats_with float_percent Server.two_messages FIFO [] 1
          ⟨7, 0⟩).stats.timeout_percent =
        float_percent
          (refresh_stats_with float_percent Server.two_messages FIFO [] 1 ⟨7, 0⟩).stats.timeout
          (refresh_stats_with float_percent Server.two_messages FIFO [] 1 ⟨7, 0⟩).stats.total ∧
      ∀ d, msg_percent (refresh_stats_with float_percent Server.two_messages FIFO [] 1
          ⟨7, 0⟩).stats d = msg_percent Server.two_messages.stats d)) ∧
    (msg_percent (refresh_stats_with float_percent Server.two_messages FIFO [52, 50, 0] 0
        ⟨7, 0⟩).stats FIFO = 8738134 / 131072 ∧
      msg_percent (refresh_stats_with float_percent Server.two_messages FIFO [52, 50, 0] 0
        ⟨7, 0⟩).stats SHARED_MEMORY = 50 ∧
      (refresh_stats_with float_percent Server.two_messages FIFO [] 1
        ⟨7, 0⟩).stats.timeout_percent = 8738134 / 262144 ∧
      msg_percent (refresh_stats_with float_percent Server.two_messages FIFO [] 1
        ⟨7, 0⟩).stats FIFO = 100 ∧
      msg_percent (refresh_stats_with float_percent Server.two_messages FIFO [] 1
        ⟨7, 0⟩).stats SHARED_MEMORY = 50) := by
  have h := lazy_float_percentage_update Server.two_messages FIFO [52, 50, 0] ⟨7, 0⟩
    (by decide) (by decide)
  obtain ⟨-, -, -, -, -, hfp, hmp, -, -⟩ := two_messages_stats
  refine ⟨⟨by decide, by decide⟩, h, ?_, ?_, ?_, ?_, ?_⟩
  · show float_percent 2 3 = _
    exact float_percent_2_3
  · rw [h.1.2.2.2.1 SHARED_MEMORY (by decide)]
    exact hmp
  · show float_percent 1 3 = _
    exact float_percent_1_3
  · rw [h.2.2.2.2 FIFO]
    exact hfp
  · rw [h.2.2.2.2 SHARED_MEMORY]
    exact hmp

theorem refresh_stats_rate (s : Server) (c : ChannelType) (msg : List Nat) (t : Int)
    (now : timespec) :
    (refresh_stats s c msg t now).swaper = (refresh_message_rate s now).swaper ∧
    (refresh_stats s c msg t now).start = (refresh_message_rate s now).start ∧
    (refresh_stats s c msg t now).stats.msg_rate = (refresh_message_rate s now).stats.msg_rate := by
  unfold refresh_stats print_msg_info print_msg_timeout
  cases c <;> simp only [] <;> split <;> exact ⟨rfl, rfl, rfl⟩

theorem refresh_message_rate_swaper (s : Server) (now : timespec) :
    (refresh_message_rate s now).swaper = if s.swaper = 0 then 1 else 0 := by
  unfold refresh_message_rate
  by_cases h : s.swaper = 0 <;> simp [h]

theorem refresh_message_rate_even (s : Server) (now : timespec) (h : s.swaper = 0) :
    (refresh_message_rate s now).stats.msg_rate = s.stats.msg_rate ∧
    (refresh_message_rate s now).start = now := by
  unfold refresh_message_rate
  simp [h]

theorem refresh_message_rate_changes (s : Server) (now : timespec)
    (h : (refresh_message_rate s now).stats.msg_rate ≠ s.stats.msg_rate) : s.swaper ≠ 0 := by
  intro h0
  exact h (refresh_message_rate_even s now h0).1

theorem refresh_stats_swaper (s : Server) (c : ChannelType) (msg : List Nat) (t : Int)
    (now : timespec) : (refresh_stats s c msg t now).swaper = if s.swaper = 0 then 1 else 0 := by
  rw [(refresh_stats_rate _ _ _ _ _).1, refresh_message_rate_swaper]

theorem recibe_msg_swaper (s : Server) (c : ChannelType) (env : Env) (hc : c.valid) :
    (recibe_msg s c env).swaper = if s.swaper = 0 then 1 else 0 := by
  cases c <;> simp only [ChannelType.valid, recibe_msg, refresh_stats_swaper] at hc ⊢
  · congr 2
    split <;> rfl
  · congr 2
    split <;> rfl
  · exact absurd rfl hc

@[simp]
theorem change_timer_state_swaper (s : Server) (c : ChannelType) (st : Int) :
    (change_timer_state s c st).swaper = s.swaper := by
  cases c <;> rfl

@[simp]
theorem change_channel_state_swaper (s : Server) (c : ChannelType) (st pid : Int) :
    (change_channel_state s c st pid).swaper = s.swaper := by
  cases c <;> rfl

theorem phase_step (s : Server) (e : Event) (hs : s.swaper = s.stats.total % 2)
    (he : e.is_request_or_timer) :
    ∃ s1, signal_handler s e.sig e.info e.env = .ok s1 ∧ s1.swaper = s1.stats.total % 2 := by
  obtain ⟨s1, hrun, hcase⟩ := signal_handler_cases s e he
  refine ⟨s1, hrun, ?_⟩
  rcases hcase with h | ⟨c, hc, -, -, h⟩ | ⟨-, h⟩ | ⟨c, -, -, h⟩ | ⟨c, hc, -, h⟩
  · rw [h]; exact hs
  · subst h
    simp only [change_timer_state_swaper, change_channel_state_swaper, change_timer_state_stats,
      change_channel_state_stats, recibe_msg_swaper _ _ _ hc, recibe_msg_total _ _ _ hc]
    split <;> omega
  · rw [h]; exact hs
  · subst h
    simpa using hs
  · subst h
    simp only [change_timer_state_swaper, change_channel_state_swaper, change_timer_state_stats,
      change_channel_state_stats, (refresh_stats_rate _ _ _ _ _).1, refresh_message_rate_swaper,
      refresh_stats_total]
    split <;> omega

/-- Claim C19: Two-phase rate capture.  Every finite sequence of requests and
timer expirations handled from the zero-initialised state ends in a state
where the phase flag `swaper` equals `total mod 2`.  In such a state a call of
`refresh_stats` leaves `swaper`, `start` and `msg_rate` as one call of
`refresh_message_rate` on the state before the increment of the total leaves
them; when the total is even the call records the clock reading in `start`
and leaves `msg_rate` unchanged; and `msg_rate` changes only when the total is
odd. -/
theorem two_phase_rate_capture (evs : List Event) (hevs : ∀ e ∈ evs, e.is_request_or_timer) :
    ∃ s, run Server.zero evs = .ok s ∧ s.swaper = s.stats.total % 2 ∧
      ∀ (c : ChannelType) (msg : List Nat) (t : Int) (now : timespec),
        ((refresh_stats s c msg t now).swaper = (refresh_message_rate s now).swaper ∧
          (refresh_stats s c msg t now).start = (refresh_message_rate s now).start ∧
          (refresh_stats s c msg t now).stats.msg_rate =
            (refresh_message_rate s now).stats.msg_rate ∧
          (refresh_stats s c msg t now).stats.total = s.stats.total + 1) ∧
        (s.stats.total % 2 = 0 →
          (refresh_stats s c msg t now).stats.msg_rate = s.stats.msg_rate ∧
          (refresh_stats s c msg t now).start = now) ∧
        ((refresh_stats s c msg t now).stats.msg_rate ≠ s.stats.msg_rate →
          s.stats.total % 2 = 1) := by
  obtain ⟨s, hrun, hs⟩ := run_keeps (fun s => s.swaper = s.stats.total % 2)
    Event.is_request_or_timer (fun s e hs he => phase_step s e hs he) evs Server.zero
    (by decide) hevs
  refine ⟨s, hrun, hs, fun c msg t now => ?_⟩
  obtain ⟨h1, h2, h3⟩ := refresh_stats_rate s c msg t now
  refine ⟨⟨h1, h2, h3, refresh_stats_total s c msg t now⟩, ?_, ?_⟩
  · intro heven
    rw [h2, h3]
    exact refresh_message_rate_even s now (by omega)
  · intro hne
    rw [h3] at hne
    have := refresh_message_rate_changes s now hne
    omega

/-- Claim C19 at a concrete input: a complete cycle on the FIFO followed by an
expiration of the FIFO timer. -/
theorem two_phase_rate_capture_witness :
    (∀ e ∈ Event.fifo_cycle ++ [Event.fifo_timer], e.is_request_or_timer) ∧
    ∃ s, run Server.zero (Event.fifo_cycle ++ [Event.fifo_timer]) = .ok s ∧
      s.swaper = s.stats.total % 2 ∧
      ∀ (c : ChannelType) (msg : List Nat) (t : Int) (now : timespec),
        ((refresh_stats s c msg t now).swaper = (refresh_message_rate s now).swaper ∧
          (refresh_stats s c msg t now).start = (refresh_message_rate s now).start ∧
          (refresh_stats s c msg t now).stats.msg_rate =
            (refresh_message_rate s now).stats.msg_rate ∧
          (refresh_stats s c msg t now).stats.total = s.stats.total + 1) ∧
        (s.stats.total % 2 = 0 →
          (refresh_stats s c msg t now).stats.msg_rate = s.stats.msg_rate ∧
          (refresh_stats s c msg t now).start = now) ∧
        ((refresh_stats s c msg t now).stats.msg_rate ≠ s.stats.msg_rate →
          s.stats.total % 2 = 1) :=
  ⟨by decide, two_phase_rate_capture (Event.fifo_cycle ++ [Event.fifo_timer]) (by decide)⟩

/-! ## Responses -/

theorem responses_append (a b : List Syscall) :
    responses (a ++ b) = responses a ++ responses b := by
  induction a with
  | nil => rfl
  | cons x xs ih => cases x <;> simp [responses, ih]

theorem responses_change_channel_state (s : Server) (c : ChannelType) (st pid : Int) :
    responses (change_channel_state s c st pid).calls = responses s.calls := by
  cases c <;> rfl

theorem responses_change_timer_state (s : Server) (c : ChannelType) (st : Int) :
    responses (change_timer_state s c st).calls = responses s.calls := by
  cases c <;> simp [change_timer_state, responses_append, responses]

theorem responses_refresh_stats (s : Server) (c : ChannelType) (msg : List Nat) (t : Int)
    (now : timespec) : responses (refresh_stats s c msg t now).calls = responses s.calls := by
  unfold refresh_stats refresh_message_rate print_msg_info print_msg_timeout
  cases c <;> simp only [] <;> split <;> split <;> simp [responses_append, responses]

theorem responses_recibe_msg (s : Server) (c : ChannelType) (env : Env) :
    responses (recibe_msg s c env).calls = responses s.calls := by
  cases c <;> simp only [recibe_msg, responses_refresh_stats]
  · split <;> simp [responses_append, responses]
  · split <;> simp [responses_append, responses]

theorem decode_encode (c : ChannelType) (sub : USRSignalType)
    (hs : sub = START_WRITE ∨ sub = END_WRITE) :
    decode_channel (IpcClient.encode_request c sub) = c ∧
    decode_signal (IpcClient.encode_request c sub) = sub := by
  rcases hs with h | h <;> subst h <;> cases c <;> exact ⟨rfl, rfl⟩

/-- An accepted `START_WRITE`: the effect on locks, holders, statistics and
responses. -/
theorem start_write_on_free_channel (s : Server) (info : siginfo_t) (env : Env)
    (hsig : decode_signal info.sival_int = START_WRITE)
    (hfree : is_lock_channel s (decode_channel info.sival_int) = 0) :
    ∃ s1, signal_handler s SIGUSR1 info env = .ok s1 ∧
      s1.locks = (change_channel_state s (decode_channel info.sival_int) LOCK info.si_pid).locks ∧
      s1.pid_channel_use =
        (change_channel_state s (decode_channel info.sival_int) LOCK info.si_pid).pid_channel_use ∧
      s1.timers =
        (change_timer_state s (decode_channel info.sival_int) START).timers ∧
      s1.stats = s.stats ∧ s1.swaper = s.swaper ∧
      responses s1.calls = responses s.calls ++ [(info.si_pid, (START_WRITE : Int))] := by
  refine ⟨_, handler_start_free s info env hsig hfree, ?_, ?_, ?_, ?_, ?_, ?_⟩
  · simp
  · simp
  · cases decode_channel info.sival_int <;> rfl
  · simp
  · simp
  · simp [responses_append, responses_change_timer_state, responses_change_channel_state,
      responses]

theorem end_write_responses (s s1 : Server) (info : siginfo_t) (env : Env)
    (hsig : decode_signal info.sival_int = END_WRITE)
    (hlock : is_lock_channel s (decode_channel info.sival_int) ≠ 0)
    (hrun : signal_handler s SIGUSR1 info env = .ok s1) :
    responses s1.calls = responses s.calls := by
  rw [handler_end_locked s info env hsig hlock] at hrun
  injection hrun with hrun
  rw [← hrun, responses_change_timer_state, responses_change_channel_state,
    responses_recibe_msg]

/-- One complete cycle on a free valid channel. -/
theorem cycle_step (s : Server) (c : ChannelType) (cy : Cycle) (hc : c.valid)
    (hfree : is_lock_channel s c = 0) :
    ∃ s1 s2,
      signal_handler s SIGUSR1
        ⟨cy.start_pid, IpcClient.encode_request c START_WRITE, timer_t.other⟩ cy.start_env =
          .ok s1 ∧
      signal_handler s1 SIGUSR1
        ⟨cy.end_pid, IpcClient.encode_request c END_WRITE, timer_t.other⟩ cy.end_env = .ok s2 ∧
      responses s2.calls = responses s.calls ++ [(cy.start_pid, (START_WRITE : Int))] ∧
      (∀ d, msg_count s2.stats d = if d = c then msg_count s.stats d + 1 else msg_count s.stats d) ∧
      s2.stats.total = s.stats.total + 1 ∧ s2.stats.timeout = s.stats.timeout ∧
      is_lock_channel s2 c = 0 := by
  obtain ⟨hd1, hs1⟩ := decode_encode c START_WRITE (Or.inl rfl)
  obtain ⟨hd2, hs2⟩ := decode_encode c END_WRITE (Or.inr rfl)
  obtain ⟨s1, h1, hl1, -, -, hst1, -, hr1⟩ := start_write_on_free_channel s
    ⟨cy.start_pid, IpcClient.encode_request c START_WRITE, timer_t.other⟩ cy.start_env hs1
    (by rw [hd1]; exact hfree)
  simp only [hd1] at hl1 hr1
  have hlock1 : is_lock_channel s1 c ≠ 0 := by
    rw [is_lock_channel_congr s1 _ c hl1, change_channel_state_lock _ _ _ _ _ hc]
    simp [LOCK]
  have hlock2 : is_lock_channel s1
      (decode_channel (⟨cy.end_pid, IpcClient.encode_request c END_WRITE,
        timer_t.other⟩ : siginfo_t).sival_int) ≠ 0 := by
    rw [hd2]; exact hlock1
  obtain ⟨s2, h2, hcnt, htot, hto, hl, -, -⟩ := end_write_on_locked_channel s1
    ⟨cy.end_pid, IpcClient.encode_request c END_WRITE, timer_t.other⟩ cy.end_env hs2 hlock2
  have hr2 := end_write_responses s1 s2 _ _ hs2 hlock2 h2
  simp only [hd2] at hcnt hl
  refine ⟨s1, s2, h1, h2, ?_, ?_, ?_, ?_, ?_⟩
  · rw [hr2, hr1]
  · intro d
    rw [hcnt d, hst1]
  · rw [htot, hst1]
  · rw [hto, hst1]
  · simpa using hl c

/-- Consecutive complete cycles on a valid channel that is free at the start. -/
theorem cycles_from (c : ChannelType) (hc : c.valid) :
    ∀ (cs : List Cycle) (s : Server), is_lock_channel s c = 0 →
      ∃ s1, run s (cycle_events c cs) = .ok s1 ∧
        responses s1.calls =
          responses s.calls ++ cs.map (fun cy => (cy.start_pid, (START_WRITE : Int))) ∧
        msg_count s1.stats c = msg_count s.stats c + cs.length ∧
        (∀ d, d ≠ c → msg_count s1.stats d = msg_count s.stats d) ∧
        s1.stats.total = s.stats.total + cs.length ∧
        s1.stats.timeout = s.stats.timeout ∧
        is_lock_channel s1 c = 0 := by
  intro cs
  induction cs with
  | nil =>
    intro s hfree
    exact ⟨s, rfl, by simp, by simp, fun _ _ => rfl, by simp, rfl, hfree⟩
  | cons cy rest ih =>
    intro s hfree
    obtain ⟨s1, s2, h1, h2, hresp, hcnt, htot, hto, hfree2⟩ := cycle_step s c cy hc hfree
    obtain ⟨s3, h3, hresp3, hc3, ho3, htot3, hto3, hfree3⟩ := ih s2 hfree2
    refine ⟨s3, ?_, ?_, ?_, ?_, ?_, ?_, hfree3⟩
    · simp only [cycle_events, run, h1, h2]
      exact h3
    · rw [hresp3, hresp]
      simp
    · rw [hc3, hcnt c]
      simp only [if_true, List.length_cons]
      push_cast
      ring
    · intro d hd
      rw [ho3 d hd, hcnt d]
      simp [hd]
    · rw [htot3, htot]
      simp only [List.length_cons]
      push_cast
      ring
    · rw [hto3, hto]

/-- Claim C14: Repeated complete cycles.  For every valid channel `c` and every
list of `n` cycles, with any sender pids and any results of the system calls,
handling from the zero-initialised state the `n` consecutive pairs
(`START_WRITE` on `c`, then `END_WRITE` on `c`) runs to the end; the responses
sent are exactly one accept per cycle, to the sender of its `START_WRITE`, and
the final state has count of `c` equal to `n`, total `n`, timeout 0, the other
two channel counts 0, and `c` free. -/
theorem repeated_complete_cycles (c : ChannelType) (cs : List Cycle) (hc : c.valid) :
    ∃ s, run Server.zero (cycle_events c cs) = .ok s ∧
      responses s.calls = cs.map (fun cy => (cy.start_pid, (START_WRITE : Int))) ∧
      msg_count s.stats c = cs.length ∧
      s.stats.total = cs.length ∧
      s.stats.timeout = 0 ∧
      (∀ d, d ≠ c → msg_count s.stats d = 0) ∧
      is_lock_channel s c = 0 := by
  have hfree : is_lock_channel Server.zero c = 0 := by cases c <;> rfl
  obtain ⟨s, hrun, hresp, hcnt, hoth, htot, hto, hl⟩ := cycles_from c hc cs Server.zero hfree
  refine ⟨s, hrun, ?_, ?_, ?_, ?_, ?_, hl⟩
  · simpa [Server.zero, responses] using hresp
  · rw [hcnt]
    cases c <;> simp [msg_count, Server.zero]
  · rw [htot]
    simp [Server.zero]
  · rw [hto]
    rfl
  · intro d hd
    rw [hoth d hd]
    cases d <;> rfl

/-- Claim C14 at a concrete input: 100 complete cycles on the FIFO; the FIFO
count and the total are 100. -/
theorem repeated_complete_cycles_witness :
    FIFO.valid ∧
    ∃ s, run Server.zero (cycle_events FIFO (List.replicate 100 Cycle.sample)) = .ok s ∧
      responses s.calls = List.replicate 100 (77, (START_WRITE : Int)) ∧
      msg_count s.stats FIFO = 100 ∧
      s.stats.total = 100 ∧
      s.stats.timeout = 0 ∧
      (∀ d, d ≠ FIFO → msg_count s.stats d = 0) ∧
      is_lock_channel s FIFO = 0 := by
  refine ⟨by decide, ?_⟩
  obtain ⟨s, hrun, hresp, hcnt, htot, hto, hoth, hl⟩ :=
    repeated_complete_cycles FIFO (List.replicate 100 Cycle.sample) (by decide)
  refine ⟨s, hrun, ?_, ?_, ?_, hto, hoth, hl⟩
  · rw [hresp, List.map_replicate]
    rfl
  · rw [hcnt, List.length_replicate]
    rfl
  · rw [htot, List.length_replicate]
    rfl

/-! ## Payload round trip -/

theorem c_str_nul_free (msg : List Nat) (h : ∀ b ∈ msg, b ≠ 0) : c_str msg = msg := by
  unfold c_str
  induction msg with
  | nil => rfl
  | cons b bs ih =>
    have hb : b ≠ 0 := h b (List.mem_cons_self _ _)
    simp only [List.takeWhile_cons, hb, ne_eq, not_false_eq_true, decide_True, if_true]
    rw [ih (fun x hx => h x (List.mem_cons_of_mem _ hx))]

theorem c_str_terminated (msg rest : List Nat) (h : ∀ b ∈ msg, b ≠ 0) :
    c_str (msg ++ 0 :: rest) = msg := by
  unfold c_str
  induction msg with
  | nil => simp
  | cons b bs ih =>
    have hb : b ≠ 0 := h b (List.mem_cons_self _ _)
    simp only [List.cons_append, List.takeWhile_cons, hb, ne_eq, not_false_eq_true, decide_True,
      if_true]
    rw [ih (fun x hx => h x (List.mem_cons_of_mem _ hx))]

theorem with_nul_nul_free (msg : List Nat) (h : ∀ b ∈ msg, b ≠ 0) :
    IpcClient.with_nul msg = msg ++ [0] := by
  unfold IpcClient.with_nul
  rw [c_str_nul_free msg h]

theorem read_into_whole (buffer msg : List Nat) (hlen : msg.length < MSG_MAX_SIZE) :
    read_into buffer (msg ++ [0]) = (msg ++ [0]) ++ buffer.drop (msg.length + 1) := by
  unfold read_into
  have h : (msg ++ [0]).take MSG_MAX_SIZE = msg ++ [0] := by
    apply List.take_of_length_le
    simp
    omega
  simp [h]

theorem take_terminated (msg rest : List Nat) :
    ((msg ++ [0]) ++ rest).take (msg.length + 1) = msg ++ [0] := by
  have h : (msg ++ [0]).length = msg.length + 1 := by simp
  rw [← h, List.take_left]

theorem c_str_of_take (buf msg : List Nat) (hnul : ∀ b ∈ msg, b ≠ 0)
    (htake : buf.take (msg.length + 1) = msg ++ [0]) : c_str buf = msg := by
  have h : buf = msg ++ 0 :: buf.drop (msg.length + 1) := by
    conv_lhs => rw [← List.take_append_drop (msg.length + 1) buf, htake]
    simp
  rw [h]
  exact c_str_terminated msg _ hnul

theorem refresh_stats_calls (s : Server) (c : ChannelType) (msg : List Nat) (now : timespec) :
    (refresh_stats s c msg 0 now).calls =
      s.calls ++ [Syscall.print_msg_info c (get_pid s c) (c_str msg)] := by
  unfold refresh_stats refresh_message_rate print_msg_info
  cases c <;> simp [get_pid] <;> split <;> rfl

/-- The FIFO round trip, into a pipe that holds nothing. -/
theorem fifo_round_trip (msg : List Nat) (st st1 : IpcClient.State) (rest : List (Option Int))
    (cenv : IpcClient.Env) (tr : IpcClient.Transport) (s : Server) (now : timespec) (fd : Int)
    (hnul : ∀ b ∈ msg, b ≠ 0) (hlen : msg.length < MSG_MAX_SIZE)
    (hacc : IpcClient.request_send st cenv.replies = some (1, st1, rest))
    (hopen : 0 ≤ cenv.open_fd) (hfd : 0 ≤ fd) (hpipe : tr.pipe = []) :
    ∃ st2 tr2, IpcClient.fifo_send st tr msg cenv = some (st2, tr2) ∧
      ∃ s0 buf, buf.take (msg.length + 1) = msg ++ [0] ∧ c_str buf = msg ∧
        recibe_msg { s with shm := tr2.shm } FIFO (IpcClient.server_env tr2 now fd) =
          refresh_stats s0 FIFO buf 0 now := by
  have hw := with_nul_nul_free msg hnul
  have hnot : ¬ cenv.open_fd < 0 := by omega
  have hnot2 : ¬ fd < 0 := by omega
  refine ⟨_, _, by simp [IpcClient.fifo_send, hacc, hnot]; exact ⟨rfl, rfl⟩, ?_⟩
  refine ⟨{ s with
      shm := tr.shm
      fifo := ⟨fd, (msg ++ [0]) ++ s.fifo.buffer.drop (msg.length + 1)⟩
      calls := s.calls ++ [Syscall.open_fifo] ++ [Syscall.read_fifo fd, Syscall.close fd] },
    (msg ++ [0]) ++ s.fifo.buffer.drop (msg.length + 1), take_terminated _ _, ?_, ?_⟩
  · rw [List.append_assoc]
    exact c_str_terminated msg _ hnul
  · simp [recibe_msg, IpcClient.server_env, hnot2, hw, hpipe, read_into_whole _ _ hlen]

/-- The shared memory round trip, whatever the segment held. -/
theorem shared_memory_round_trip (msg : List Nat) (st st1 : IpcClient.State)
    (rest : List (Option Int)) (cenv : IpcClient.Env) (tr : IpcClient.Transport) (s : Server)
    (now : timespec) (fd : Int)
    (hnul : ∀ b ∈ msg, b ≠ 0)
    (hacc : IpcClient.request_send st cenv.replies = some (1, st1, rest)) :
    ∃ st2 tr2, IpcClient.shared_memory_send st tr msg cenv = some (st2, tr2) ∧
      ∃ s0 buf, buf.take (msg.length + 1) = msg ++ [0] ∧ c_str buf = msg ∧
        recibe_msg { s with shm := tr2.shm } SHARED_MEMORY (IpcClient.server_env tr2 now fd) =
          { refresh_stats s0 SHARED_MEMORY buf 0 now with
            shm := List.replicate MSG_MAX_SIZE 0 } := by
  have hw := with_nul_nul_free msg hnul
  refine ⟨_, _, by simp [IpcClient.shared_memory_send, hacc]; exact ⟨rfl, rfl⟩, ?_⟩
  refine ⟨{ s with shm := (msg ++ [0]) ++ tr.shm.drop (msg.length + 1) },
    (msg ++ [0]) ++ tr.shm.drop (msg.length + 1), take_terminated _ _, ?_, ?_⟩
  · rw [List.append_assoc]
    exact c_str_terminated msg _ hnul
  · simp [recibe_msg, IpcClient.server_env, hw]

/-- The message queue round trip, into a queue that holds nothing. -/
theorem message_queue_round_trip (msg : List Nat) (st st1 : IpcClient.State)
    (rest : List (Option Int)) (cenv : IpcClient.Env) (tr : IpcClient.Transport) (s : Server)
    (now : timespec) (fd : Int)
    (hnul : ∀ b ∈ msg, b ≠ 0) (hlen : msg.length < MSG_MAX_SIZE)
    (hacc : IpcClient.request_send st cenv.replies = some (1, st1, rest))
    (hsnd : cenv.msgsnd_ok = true) (hqueue : tr.queue = []) :
    ∃ st2 tr2, IpcClient.message_queue_send st tr msg cenv = some (st2, tr2) ∧
      ∃ s0 buf, buf.take (msg.length + 1) = msg ++ [0] ∧ c_str buf = msg ∧
        recibe_msg { s with shm := tr2.shm } MESSAGE_QUEUE (IpcClient.server_env tr2 now fd) =
          refresh_stats s0 MESSAGE_QUEUE buf 0 now := by
  have hw := with_nul_nul_free msg hnul
  refine ⟨_, _, by simp [IpcClient.message_queue_send, hacc, hsnd]; exact ⟨rfl, rfl⟩, ?_⟩
  refine ⟨{ s with
      shm := tr.shm
      msgqueue_buffer := ⟨1, (msg ++ [0]) ++ s.msgqueue_buffer.msg.drop (msg.length + 1)⟩
      calls := s.calls ++ [Syscall.msgrcv] },
    (msg ++ [0]) ++ s.msgqueue_buffer.msg.drop (msg.length + 1), take_terminated _ _, ?_, ?_⟩
  · rw [List.append_assoc]
    exact c_str_terminated msg _ hnul
  · simp [recibe_msg, IpcClient.server_env, hw, hqueue, read_into_whole _ _ hlen]

/-- Claim C13, amended.  Let `c` be one of the three channel kinds and `msg` a
NUL-free message of fewer than 1024 bytes, sent by a client of kind `c` whose
handshake `request_send` returned 1, with `open` and `msgsnd` succeeding, and
let the transport of `c` hold no earlier payload: the pipe is empty when `c`
is the FIFO, the queue is empty when `c` is the message queue (the shared
memory segment may hold anything).  Then `client->send` returns, and when the
server runs `recibe_msg` for `c` on what the transport delivers, the buffer it
passes to `refresh_stats` starts with the bytes of `msg` followed by the
terminating NUL, so the string it holds is `msg`. -/
theorem payload_round_trip_on_clean_transport (c : ChannelType) (msg : List Nat)
    (st st1 : IpcClient.State) (rest : List (Option Int)) (cenv : IpcClient.Env)
    (tr : IpcClient.Transport) (s : Server) (now : timespec) (fd : Int)
    (hc : c.valid) (htype : st.type = c)
    (hnul : ∀ b ∈ msg, b ≠ 0) (hlen : msg.length < MSG_MAX_SIZE)
    (hacc : IpcClient.request_send st cenv.replies = some (1, st1, rest))
    (hopen : 0 ≤ cenv.open_fd) (hsnd : cenv.msgsnd_ok = true) (hfd : 0 ≤ fd)
    (hpipe : c = FIFO → tr.pipe = []) (hqueue : c = MESSAGE_QUEUE → tr.queue = []) :
    ∃ st2 tr2, IpcClient.send st tr msg cenv = some (st2, tr2) ∧
      ∃ s0 buf, buf.take (msg.length + 1) = msg ++ [0] ∧ c_str buf = msg ∧
        (recibe_msg { s with shm := tr2.shm } c (IpcClient.server_env tr2 now fd) =
            refresh_stats s0 c buf 0 now ∨
          recibe_msg { s with shm := tr2.shm } c (IpcClient.server_env tr2 now fd) =
            { refresh_stats s0 c buf 0 now with shm := List.replicate MSG_MAX_SIZE 0 }) := by
  cases c
  · obtain ⟨st2, tr2, hsend, s0, buf, h1, h2, h3⟩ :=
      fifo_round_trip msg st st1 rest cenv tr s now fd hnul hlen hacc hopen hfd (hpipe rfl)
    exact ⟨st2, tr2, by simp [IpcClient.send, htype, hsend], s0, buf, h1, h2, Or.inl h3⟩
  · obtain ⟨st2, tr2, hsend, s0, buf, h1, h2, h3⟩ :=
      shared_memory_round_trip msg st st1 rest cenv tr s now fd hnul hacc
    exact ⟨st2, tr2, by simp [IpcClient.send, htype, hsend], s0, buf, h1, h2, Or.inr h3⟩
  · obtain ⟨st2, tr2, hsend, s0, buf, h1, h2, h3⟩ :=
      message_queue_round_trip msg st st1 rest cenv tr s now fd hnul hlen hacc hsnd (hqueue rfl)
    exact ⟨st2, tr2, by simp [IpcClient.send, htype, hsend], s0, buf, h1, h2, Or.inl h3⟩
  · exact absurd rfl hc

/-- Claim C13 as stated fails.  A first client of the message queue is
accepted and queues `"A"` (byte 65); on the server the grant to process 77
times out, so the late `END_WRITE` is dropped without any `msgrcv`, and
process 88 is granted the queue.  The second client then sends the NUL-free
message `"42"` after an accepted handshake.  The buffer `recibe_msg` passes to
`refresh_stats` does not start with the bytes of `"42"` and the NUL: it starts
with the bytes of `"A"`, the message queued first. -/
theorem stale_message_is_received_first :
    ∃ st2 tr2 s4 st4 tr4,
      IpcClient.send (IpcClient.State.fresh MESSAGE_QUEUE)
        (IpcClient.Transport.unused Server.zero.shm) [65] IpcClient.Env.accepted =
          some (st2, tr2) ∧
      run Server.zero Event.queue_timeout = .ok s4 ∧
      Syscall.msgrcv ∉ s4.calls ∧ get_pid s4 MESSAGE_QUEUE = 88 ∧
      (MESSAGE_QUEUE.valid ∧ (∀ b ∈ [52, 50], b ≠ 0) ∧ [52, 50].length < MSG_MAX_SIZE ∧
        IpcClient.request_send (IpcClient.State.fresh MESSAGE_QUEUE)
          IpcClient.Env.accepted.replies =
            some (1, IpcClient.State.accepted MESSAGE_QUEUE, [])) ∧
      IpcClient.send (IpcClient.State.fresh MESSAGE_QUEUE) tr2 [52, 50]
        IpcClient.Env.accepted = some (st4, tr4) ∧
      (¬ ∃ s0 buf, buf.take ([52, 50].length + 1) = [52, 50] ++ [0] ∧
        (recibe_msg { s4 with shm := tr4.shm } MESSAGE_QUEUE
            (IpcClient.server_env tr4 ⟨5, 0⟩ 3) =
            refresh_stats s0 MESSAGE_QUEUE buf 0 ⟨5, 0⟩ ∨
          recibe_msg { s4 with shm := tr4.shm } MESSAGE_QUEUE
            (IpcClient.server_env tr4 ⟨5, 0⟩ 3) =
            { refresh_stats s0 MESSAGE_QUEUE buf 0 ⟨5, 0⟩ with
              shm := List.replicate MSG_MAX_SIZE 0 })) ∧
      ∃ s0 buf, buf.take 2 = [65, 0] ∧ c_str buf = [65] ∧
        recibe_msg { s4 with shm := tr4.shm } MESSAGE_QUEUE
          (IpcClient.server_env tr4 ⟨5, 0⟩ 3) = refresh_stats s0 MESSAGE_QUEUE buf 0 ⟨5, 0⟩ := by
  refine ⟨_, _, _, _, _, rfl, rfl, by decide, rfl, ⟨by decide, by decide, by decide, rfl⟩,
    rfl, ?_, ?_⟩
  · rintro ⟨s0, buf, htake, heq⟩
    have hstr : c_str buf = [52, 50] := c_str_of_take buf [52, 50] (by decide) htake
    have hlast : ∀ t : Server,
        t.calls = s0.calls ++
          [Syscall.print_msg_info MESSAGE_QUEUE (get_pid s0 MESSAGE_QUEUE) (c_str buf)] →
        t.calls.getLast? = some (Syscall.print_msg_info MESSAGE_QUEUE 88 [65]) → False := by
      intro t ht hl
      rw [ht, List.getLast?_concat, hstr] at hl
      simp at hl
    rcases heq with heq | heq
    · have e1 := congrArg Server.calls heq
      rw [refresh_stats_calls] at e1
      exact hlast _ e1 rfl
    · have e1 := congrArg Server.calls heq
      dsimp only at e1
      rw [refresh_stats_calls] at e1
      exact hlast _ e1 rfl
  · exact ⟨_, [65, 0] ++ List.replicate 1022 0, by decide, by decide, rfl⟩

/-- Claim C13, amended, at concrete inputs: the message `"42"` (bytes 52, 50)
sent by a FIFO client, by a shared memory client and by a message queue client,
each after a handshake accepted at the first request, through transports that
hold nothing, and received by the zero-initialised server. -/
theorem payload_round_trip_on_clean_transport_witness :
    ((∀ b ∈ [52, 50], b ≠ 0) ∧ [52, 50].length < MSG_MAX_SIZE ∧
      0 ≤ IpcClient.Env.accepted.open_fd ∧ IpcClient.Env.accepted.msgsnd_ok = true ∧
      (0 : Int) ≤ 3 ∧
      (IpcClient.Transport.unused Server.zero.shm).pipe = [] ∧
      (IpcClient.Transport.unused Server.zero.shm).queue = []) ∧
    ((FIFO.valid ∧ (IpcClient.State.fresh FIFO).type = FIFO ∧
      IpcClient.request_send (IpcClient.State.fresh FIFO) IpcClient.Env.accepted.replies =
        some (1, IpcClient.State.accepted FIFO, [])) ∧
      (SHARED_MEMORY.valid ∧ (IpcClient.State.fresh SHARED_MEMORY).type = SHARED_MEMORY ∧
      IpcClient.request_send (IpcClient.State.fresh SHARED_MEMORY) IpcClient.Env.accepted.replies =
        some (1, IpcClient.State.accepted SHARED_MEMORY, [])) ∧
      (MESSAGE_QUEUE.valid ∧ (IpcClient.State.fresh MESSAGE_QUEUE).type = MESSAGE_QUEUE ∧
      IpcClient.request_send (IpcClient.State.fresh MESSAGE_QUEUE) IpcClient.Env.accepted.replies =
        some (1, IpcClient.State.accepted MESSAGE_QUEUE, []))) ∧
    (∃ st2 tr2, IpcClient.send (IpcClient.State.fresh FIFO)
        (IpcClient.Transport.unused Server.zero.shm) [52, 50] IpcClient.Env.accepted =
          some (st2, tr2) ∧
      ∃ s0 buf, buf.take ([52, 50].length + 1) = [52, 50] ++ [0] ∧ c_str buf = [52, 50] ∧
        (recibe_msg { Server.zero with shm := tr2.shm } FIFO
            (IpcClient.server_env tr2 ⟨5, 0⟩ 3) = refresh_stats s0 FIFO buf 0 ⟨5, 0⟩ ∨
          recibe_msg { Server.zero with shm := tr2.shm } FIFO
            (IpcClient.server_env tr2 ⟨5, 0⟩ 3) =
            { refresh_stats s0 FIFO buf 0 ⟨5, 0⟩ with shm := List.replicate MSG_MAX_SIZE 0 })) ∧
    (∃ st2 tr2, IpcClient.send (IpcClient.State.fresh SHARED_MEMORY)
        (IpcClient.Transport.unused Server.zero.shm) [52, 50] IpcClient.Env.accepted =
          some (st2, tr2) ∧
      ∃ s0 buf, buf.take ([52, 50].length + 1) = [52, 50] ++ [0] ∧ c_str buf = [52, 50] ∧
        (recibe_msg { Server.zero with shm := tr2.shm } SHARED_MEMORY
            (IpcClient.server_env tr2 ⟨5, 0⟩ 3) = refresh_stats s0 SHARED_MEMORY buf 0 ⟨5, 0⟩ ∨
          recibe_msg { Server.zero with shm := tr2.shm } SHARED_MEMORY
            (IpcClient.server_env tr2 ⟨5, 0⟩ 3) =
            { refresh_stats s0 SHARED_MEMORY buf 0 ⟨5, 0⟩ with shm := List.replicate MSG_MAX_SIZE 0 })) ∧
    (∃ st2 tr2, IpcClient.send (IpcClient.State.fresh MESSAGE_QUEUE)
        (IpcClient.Transport.unused Server.zero.shm) [52, 50] IpcClient.Env.accepted =
          some (st2, tr2) ∧
      ∃ s0 buf, buf.take ([52, 50].length + 1) = [52, 50] ++ [0] ∧ c_str buf = [52, 50] ∧
        (recibe_msg { Server.zero with shm := tr2.shm } MESSAGE_QUEUE
            (IpcClient.server_env tr2 ⟨5, 0⟩ 3) = refresh_stats s0 MESSAGE_QUEUE buf 0 ⟨5, 0⟩ ∨
          recibe_msg { Server.zero with shm := tr2.shm } MESSAGE_QUEUE
            (IpcClient.server_env tr2 ⟨5, 0⟩ 3) =
            { refresh_stats s0 MESSAGE_QUEUE buf 0 ⟨5, 0⟩ with shm := List.replicate MSG_MAX_SIZE 0 })) :=
  ⟨⟨by decide, by decide, by decide, rfl, by decide, rfl, rfl⟩,
    ⟨⟨by decide, rfl, rfl⟩, ⟨by decide, rfl, rfl⟩, ⟨by decide, rfl, rfl⟩⟩,
    payload_round_trip_on_clean_transport FIFO [52, 50] (IpcClient.State.fresh FIFO)
      (IpcClient.State.accepted FIFO) [] IpcClient.Env.accepted
      (IpcClient.Transport.unused Server.zero.shm) Server.zero ⟨5, 0⟩ 3 (by decide) rfl
      (by decide) (by decide) rfl (by decide) rfl (by decide) (fun _ => rfl) (fun _ => rfl),
    payload_round_trip_on_clean_transport SHARED_MEMORY [52, 50] (IpcClient.State.fresh SHARED_MEMORY)
      (IpcClient.State.accepted SHARED_MEMORY) [] IpcClient.Env.accepted
      (IpcClient.Transport.unused Server.zero.shm) Server.zero ⟨5, 0⟩ 3 (by decide) rfl
      (by decide) (by decide) rfl (by decide) rfl (by decide) (fun _ => rfl) (fun _ => rfl),
    payload_round_trip_on_clean_transport MESSAGE_QUEUE [52, 50] (IpcClient.State.fresh MESSAGE_QUEUE)
      (IpcClient.State.accepted MESSAGE_QUEUE) [] IpcClient.Env.accepted
      (IpcClient.Transport.unused Server.zero.shm) Server.zero ⟨5, 0⟩ 3 (by decide) rfl
      (by decide) (by decide) rfl (by decide) rfl (by decide) (fun _ => rfl) (fun _ => rfl)⟩

/-! ## Exactly-once accounting -/

/-- Claim C18, evaluated on the code: the single request with payload 3
(channel value 3, `START_WRITE`) contains no timer expiration; it is answered
with an accept while no channel is locked and the total stays 0, so
`total + locked channels = 0` while one request was answered accept. -/
theorem malformed_start_breaks_accounting :
    timers_fire_armed Server.zero [Event.malformed_start] ∧
    ∃ s, run Server.zero [Event.malformed_start] = .ok s ∧
      responses s.calls = [(1234, (START_WRITE : Int))] ∧
      s.stats.total = 0 ∧ locked_count s = 0 ∧ accept_count s = 1 ∧
      s.stats.total + (locked_count s : Int) ≠ (accept_count s : Int) :=
  ⟨⟨fun h => absurd h (by decide), fun _ _ => trivial⟩,
    _, rfl, rfl, rfl, rfl, rfl, by decide⟩

theorem locked_count_congr (s t : Server) (h : s.locks = t.locks) :
    locked_count s = locked_count t := by
  simp [locked_count, h]

theorem locked_count_change (s : Server) (c : ChannelType) (st pid : Int) (hc : c.valid) :
    locked_count (change_channel_state s c st pid) + (if is_lock_channel s c ≠ 0 then 1 else 0) =
      locked_count s + (if st ≠ 0 then 1 else 0) := by
  cases c <;> simp only [ChannelType.valid, locked_count, change_channel_state, is_lock_channel]
    at hc ⊢
  · split_ifs <;> omega
  · split_ifs <;> omega
  · split_ifs <;> omega
  · exact absurd rfl hc

theorem locked_count_unlock (s : Server) (c : ChannelType) (pid : Int) (hc : c.valid)
    (hlock : is_lock_channel s c ≠ 0) :
    locked_count (change_channel_state s c UNLOCK pid) + 1 = locked_count s := by
  have h := locked_count_change s c UNLOCK pid hc
  rw [if_pos hlock] at h
  simpa [UNLOCK] using h

theorem locked_count_lock (s : Server) (c : ChannelType) (pid : Int) (hc : c.valid)
    (hfree : is_lock_channel s c = 0) :
    locked_count (change_channel_state s c LOCK pid) = locked_count s + 1 := by
  have h := locked_count_change s c LOCK pid hc
  rw [hfree] at h
  simpa [LOCK] using h

/-- A `START_WRITE` on a locked channel: only the response `WAIT` is added. -/
theorem start_write_on_locked_channel (s : Server) (info : siginfo_t) (env : Env)
    (hsig : decode_signal info.sival_int = START_WRITE)
    (hlock : is_lock_channel s (decode_channel info.sival_int) ≠ 0) :
    ∃ s1, signal_handler s SIGUSR1 info env = .ok s1 ∧
      s1.locks = s.locks ∧ s1.timers = s.timers ∧ s1.stats = s.stats ∧
      responses s1.calls = responses s.calls ++ [(info.si_pid, (WAIT : Int))] :=
  ⟨_, handler_start_locked s info env hsig hlock, rfl, rfl, rfl,
    by simp [responses_append, responses]⟩

theorem accept_count_congr (s t : Server) (h : responses t.calls = responses s.calls) :
    accept_count t = accept_count s := by
  simp [accept_count, h]

theorem accept_count_accept (s t : Server) (pid : Int)
    (h : responses t.calls = responses s.calls ++ [(pid, (START_WRITE : Int))]) :
    accept_count t = accept_count s + 1 := by
  simp [accept_count, h, List.filter_append]

theorem accept_count_wait (s t : Server) (pid : Int)
    (h : responses t.calls = responses s.calls ++ [(pid, (WAIT : Int))]) :
    accept_count t = accept_count s := by
  simp [accept_count, h, List.filter_append]

/-- Releasing a locked valid channel after one terminal outcome was counted
keeps the accounting. -/
theorem accounting_release (s t : Server) (c : ChannelType) (pid : Int) (hc : c.valid)
    (hlock : is_lock_channel s c ≠ 0) (hl : t.locks = s.locks) (ht : t.timers = s.timers)
    (hr : responses t.calls = responses s.calls) (htot : t.stats.total = s.stats.total + 1)
    (hs : accounting_ok s) :
    accounting_ok (change_timer_state (change_channel_state t c UNLOCK pid) c STOP) := by
  obtain ⟨harm, hacc⟩ := hs
  constructor
  · intro d hd
    rw [change_timer_state_value _ _ _ _ hc,
      is_lock_channel_congr _ _ _ (change_timer_state_locks _ _ _),
      change_channel_state_lock _ _ _ _ _ hc,
      timer_value_congr _ t d (change_channel_state_timers _ _ _ _),
      timer_value_congr t s d ht, is_lock_channel_congr t s d hl]
    by_cases hdc : d = c
    · simp [hdc, STOP, START, UNLOCK]
    · simp only [hdc, if_false]
      exact harm d hd
  · have h1 := locked_count_unlock t c pid hc (by rw [is_lock_channel_congr t s c hl]; exact hlock)
    rw [locked_count_congr t s hl] at h1
    rw [locked_count_congr _ _ (change_timer_state_locks _ _ _),
      accept_count_congr t _ (by rw [responses_change_timer_state,
        responses_change_channel_state]),
      accept_count_congr s t hr]
    simp only [change_timer_state_stats, change_channel_state_stats, htot]
    omega

theorem accounting_step (s : Server) (e : Event) (hs : accounting_ok s)
    (he : e.is_request_or_timer) (hv : e.names_valid_channel)
    (harmed : e.sig = SIGRTMIN →
      ∃ c : ChannelType, c.valid ∧ e.info.sival_ptr = timer_of c ∧ timer_armed s c = true) :
    ∃ s1, signal_handler s e.sig e.info e.env = .ok s1 ∧ accounting_ok s1 := by
  rcases he with hsig | ⟨hsig, -⟩
  · have hc := hv hsig
    rw [hsig]
    by_cases hend : decode_signal e.info.sival_int = END_WRITE
    · by_cases hlock : is_lock_channel s (decode_channel e.info.sival_int) = 0
      · exact ⟨_, handler_end_free s e.info e.env hend hlock, hs⟩
      · exact ⟨_, handler_end_locked s e.info e.env hend hlock,
          accounting_release s _ _ _ hc hlock (recibe_msg_locks _ _ _) (recibe_msg_timers _ _ _)
            (responses_recibe_msg _ _ _) (recibe_msg_total _ _ _ hc) hs⟩
    · by_cases hstart : decode_signal e.info.sival_int = START_WRITE
      · by_cases hlock : is_lock_channel s (decode_channel e.info.sival_int) = 0
        · obtain ⟨s1, hrun, hl, -, ht, hst, -, hr⟩ :=
            start_write_on_free_channel s e.info e.env hstart hlock
          refine ⟨s1, hrun, ?_, ?_⟩
          · intro d hd
            rw [timer_value_congr s1 _ d ht, change_timer_state_value _ _ _ _ hc,
              is_lock_channel_congr s1 _ d hl, change_channel_state_lock _ _ _ _ _ hc]
            by_cases hdc : d = decode_channel e.info.sival_int
            · simp [hdc, START, LOCK]
            · simp only [hdc, if_false]
              exact hs.1 d hd
          · have h1 := locked_count_lock s _ e.info.si_pid hc hlock
            rw [locked_count_congr s1 _ hl, accept_count_accept s s1 _ hr, hst, h1]
            have h2 := hs.2
            push_cast
            omega
        · obtain ⟨s1, hrun, hl, ht, hst, hr⟩ :=
            start_write_on_locked_channel s e.info e.env hstart hlock
          refine ⟨s1, hrun, ?_, ?_⟩
          · intro d hd
            rw [timer_value_congr s1 s d ht, is_lock_channel_congr s1 s d hl]
            exact hs.1 d hd
          · rw [locked_count_congr s1 s hl, accept_count_wait s s1 _ hr, hst]
            exact hs.2
      · exact ⟨_, handler_other_request s e.info e.env hend hstart, hs⟩
  · obtain ⟨c, hc, hptr, harm⟩ := harmed hsig
    rw [hsig]
    have hlock : is_lock_channel s c ≠ 0 := by
      apply (hs.1 c hc).1
      simpa [timer_armed] using harm
    exact ⟨_, handler_timer s c e.info e.env hc hptr,
      accounting_release s _ _ _ hc hlock (refresh_stats_locks _ _ _ _ _)
        (refresh_stats_timers _ _ _ _ _) (responses_refresh_stats _ _ _ _ _)
        (refresh_stats_total _ _ _ _ _) hs⟩

/-- Exactly-once accounting for requests that name one of the three channel
kinds: from any state where the accounting holds, a sequence of requests with
a valid channel kind and of timer expirations delivered while armed is handled
to its end and keeps `total + locked channels = accepts`. -/
theorem accounting_keeps :
    ∀ (evs : List Event) (s : Server), accounting_ok s →
      (∀ e ∈ evs, e.is_request_or_timer ∧ e.names_valid_channel) →
      timers_fire_armed s evs →
      ∃ s1, run s evs = .ok s1 ∧ accounting_ok s1 := by
  intro evs
  induction evs with
  | nil => intro s hs _ _; exact ⟨s, rfl, hs⟩
  | cons e es ih =>
    intro s hs hq harm
    obtain ⟨hq1, hq2⟩ := hq e (List.mem_cons_self _ _)
    obtain ⟨s1, h1, hp1⟩ := accounting_step s e hs hq1 hq2 harm.1
    obtain ⟨s2, h2, hp2⟩ := ih s1 hp1 (fun x hx => hq x (List.mem_cons_of_mem _ hx))
      (harm.2 s1 h1)
    refine ⟨s2, ?_, hp2⟩
    simp only [run, h1]
    exact h2

/-- Exactly-once accounting from the zero-initialised state, for requests that
name one of the three channel kinds. -/
theorem accounting_for_valid_channels (evs : List Event)
    (hevs : ∀ e ∈ evs, e.is_request_or_timer ∧ e.names_valid_channel)
    (harm : timers_fire_armed Server.zero evs) :
    ∃ s, run Server.zero evs = .ok s ∧
      s.stats.total + (locked_count s : Int) = (accept_count s : Int) := by
  have h0 : accounting_ok Server.zero := by
    refine ⟨fun c _ => ?_, rfl⟩
    cases c <;> simp [timer_value, is_lock_channel, Server.zero]
  obtain ⟨s, hrun, hs⟩ := accounting_keeps evs Server.zero h0 hevs harm
  exact ⟨s, hrun, hs.2⟩

end IpcServer
